import Mathlib

set_option maxRecDepth 10000

/-!
Verification development for the startup-analyst platform's core ML pipeline
(`src/ml/pdf_financial_extractor.py`, `src/ml/production_ensemble_predictor.py`,
`src/ml/production_pipeline.py`).

Python floats are modelled as rationals (`ℚ`); all inputs relevant to the
claims are exactly representable, and every arithmetic operation performed by
the code on them (add, mul, div, min, max, median) is exact on rationals.
Python dicts are modelled as insertion-ordered association lists with
`dict.update` semantics.  `None` is modelled by `Option`, and Python
truthiness (`if value:`) is modelled explicitly where the code relies on it
(`0.0`, `""`, `{}` and `None` are falsy).
-/

namespace StartupAnalyst

/-- Whitespace characters stripped by Python's `str.strip()`. -/
def pyIsSpace (c : Char) : Bool :=
  c = ' ' || c = '\t' || c = '\n' || c = '\r' || c = '\x0b' || c = '\x0c'

/-- Model of `str.strip()`: drop leading and trailing whitespace. -/
def pyStrip (cs : List Char) : List Char :=
  ((cs.dropWhile pyIsSpace).reverse.dropWhile pyIsSpace).reverse

/-- Numeric value of a digit string (most significant digit first). -/
def digitsVal (cs : List Char) : Nat :=
  cs.foldl (fun a c => a * 10 + (c.toNat - '0'.toNat)) 0

/-- Split a character list into its longest prefix of decimal digits and the
rest; models the digit-consuming steps of Python's `float()`. -/
def splitDigits : List Char → List Char × List Char
  | [] => ([], [])
  | c :: cs =>
    if c.isDigit then
      let p := splitDigits cs
      (c :: p.1, p.2)
    else ([], c :: cs)

/-- Drop one leading `+`/`-` sign if present. -/
def stripSign (cs : List Char) : List Char :=
  match cs with
  | [] => []
  | c :: t => if c = '+' ∨ c = '-' then t else c :: t

/-- Exponent tail of a Python float literal: either nothing, or
`e`/`E`, an optional sign and a nonempty digit run; yields the scale factor
(`none` when `float()` would raise). -/
def pyFloatExp : List Char → Option ℚ
  | [] => some 1
  | c :: t =>
    if c = 'e' ∨ c = 'E' then
      let t1 := stripSign t
      if (splitDigits t1).1 = [] ∨ (splitDigits t1).2 ≠ [] then none
      else
        some (if t.head? = some '-' then (1 : ℚ) / 10 ^ digitsVal (splitDigits t1).1
              else (10 : ℚ) ^ digitsVal (splitDigits t1).1)
    else none

/-- Mantissa-and-exponent assembly for the `float()` model: `ip` the integer
digits, `fp` the fraction digits, `r2` the unconsumed tail (must be a valid
exponent part or empty); at least one mantissa digit is required. -/
def pyFloatFrac (sgn : ℚ) (ip fp r2 : List Char) : Option ℚ :=
  if ip = [] ∧ fp = [] then none
  else
    (pyFloatExp r2).map fun e =>
      sgn * ((digitsVal ip : ℚ) + (digitsVal fp : ℚ) / (10 : ℚ) ^ fp.length) * e

/-- Body of the `float()` model after the sign is stripped. -/
def pyFloatBody (sgn : ℚ) (cs1 : List Char) : Option ℚ :=
  let ip := (splitDigits cs1).1
  let r1 := (splitDigits cs1).2
  if r1.head? = some '.' then
    pyFloatFrac sgn ip (splitDigits r1.tail).1 (splitDigits r1.tail).2
  else
    pyFloatFrac sgn ip [] r1

/-- Model of Python's `float(s)` on decimal literals: optional sign, digits
with an optional fractional part (at least one mantissa digit overall),
optional exponent.  Returns `none` when `float()` raises `ValueError`.
(Underscore separators and the `inf`/`nan` spellings do not occur in the
inputs this development reasons about and are not modelled.) -/
def pyFloat? (s : String) : Option ℚ :=
  pyFloatBody (if s.toList.head? = some '-' then -1 else 1) (stripSign s.toList)

/-- Model of `value_str.replace('$', '').replace(',', '').strip()` from
`parse_financial_value` (pdf_financial_extractor.py:203). -/
def pyCleanValue (s : String) : List Char :=
  pyStrip (s.toList.filter (fun c => c ≠ '$' && c ≠ ','))

/-- Model of `value_str.upper().endswith(suffix)` for a single uppercase
ASCII letter: the last character equals the letter or its lowercase form
(Python's `str.upper` maps exactly `k`/`m`/`b` to `K`/`M`/`B` on the inputs
in scope). -/
def endsWithUpper (cs : List Char) (c lc : Char) : Bool :=
  match cs.getLast? with
  | some d => d = c || d = lc
  | none => false

/-- One iteration of the suffix loop in `parse_financial_value`: if the
cleaned string ends (case-insensitively) with the given letter, parse the
prefix and multiply; `none` both when the suffix is absent and when the
prefix fails to parse (the loop's `continue`). -/
def parse_suffixed (cs : List Char) (c lc : Char) (mul : ℚ) : Option ℚ :=
  if endsWithUpper cs c lc then (pyFloat? cs.dropLast.asString).map (· * mul)
  else none

/-- Model of `ProductionPDFExtractor.parse_financial_value`
(pdf_financial_extractor.py:197-220): empty-string guard, `$`/`,` removal and
strip, K/M/B suffix multiplication — falling through to the plain-float parse
when no suffix iteration returns, mirroring the loop's `continue` — else a
plain float; `None` on failure. -/
def parse_financial_value (s : String) : Option ℚ :=
  if s = "" then none
  else
    parse_suffixed (pyCleanValue s) 'K' 'k' 1000 <|>
    parse_suffixed (pyCleanValue s) 'M' 'm' 1000000 <|>
    parse_suffixed (pyCleanValue s) 'B' 'b' 1000000000 <|>
    pyFloat? (pyCleanValue s).asString

/-- Model of `parse_value` as the specification words it (§4.1, §8): strip currency
symbols/commas/whitespace; if the remaining string ends in K/M/B
(case-insensitive) multiply the numeric prefix by 1e3/1e6/1e9; otherwise
parse as a plain float; `None` on any failure. -/
def parse_value_spec (s : String) : Option ℚ :=
  (pyCleanValue s).getLast?.bind fun d =>
    if d = 'K' ∨ d = 'k' then (pyFloat? (pyCleanValue s).dropLast.asString).map (· * 1000)
    else if d = 'M' ∨ d = 'm' then
      (pyFloat? (pyCleanValue s).dropLast.asString).map (· * 1000000)
    else if d = 'B' ∨ d = 'b' then
      (pyFloat? (pyCleanValue s).dropLast.asString).map (· * 1000000000)
    else pyFloat? (pyCleanValue s).asString



/-! ### Regex engine for the extraction patterns

`extract_financial_metrics` runs `re.findall(pattern, text, re.IGNORECASE)`
for a fixed list of patterns.  The patterns use only: case-insensitive
literals, `.` (any char except newline), the classes `\d`, `\s`, `[\d,]`,
`[KMB]`, the quantifiers `*`, `*?`, `+`, `?` (each over a single-character
matcher), and one capture group.  The engine below implements exactly this
fragment with Python's leftmost-match, greedy/lazy backtracking-priority and
non-overlapping-scan semantics for `findall`. -/

/-- Lowercase mapping for ASCII letters (helper for `re.IGNORECASE`). -/
def lowerAsciiChar (c : Char) : Char :=
  if 'A' ≤ c ∧ c ≤ 'Z' then Char.ofNat (c.toNat + 32) else c

/-- Single-character matchers appearing in the financial patterns.
`lit` compares case-insensitively (all patterns are compiled with
`re.IGNORECASE`; the letters involved are ASCII). -/
inductive CM where
  | lit (c : Char)
  | any
  | digit
  | space
  | digitComma
  | kmb
deriving Repr, DecidableEq

/-- Does `m` match character `x`?  `re.IGNORECASE` makes literals and the
`[KMB]` class case-insensitive; `.` excludes newline (no `re.DOTALL`). -/
def cmMatch : CM → Char → Bool
  | .lit c, x => x = c || x = lowerAsciiChar c || lowerAsciiChar x = c
  | .any, x => x ≠ '\n'
  | .digit, x => x.isDigit
  | .space, x => pyIsSpace x
  | .digitComma, x => x.isDigit || x = ','
  | .kmb, x => x = 'K' || x = 'M' || x = 'B' || x = 'k' || x = 'm' || x = 'b'

/-- Regular expressions of the fragment used by the financial patterns:
quantifiers apply to single-character matchers only (true of every pattern in
`_initialize_patterns`), and there is at most one capture group, not nested
under a quantifier. -/
inductive RE where
  | emp
  | cm (m : CM)
  | starG (m : CM)
  | starL (m : CM)
  | plusG (m : CM)
  | opt (m : CM)
  | seq (a b : RE)
  | group (a : RE)
deriving Repr, DecidableEq

/-- Suffixes reachable by consuming zero or more `m`-chars, greedily
(longest consumption first — Python's backtracking priority for `*`). -/
def starGMatch (m : CM) : List Char → List (List Char)
  | [] => [[]]
  | c :: rest =>
    if cmMatch m c then starGMatch m rest ++ [c :: rest]
    else [c :: rest]

/-- Suffixes reachable by consuming zero or more `m`-chars, lazily
(shortest consumption first — Python's priority for `*?`). -/
def starLMatch (m : CM) : List Char → List (List Char)
  | [] => [[]]
  | c :: rest =>
    if cmMatch m c then (c :: rest) :: starLMatch m rest
    else [c :: rest]

/-- All ways `re` can match a prefix of `s`, in Python's backtracking
priority order; each result is the remaining suffix together with the
capture-group content, if the group was crossed. -/
def REmatch : RE → List Char → List (List Char × Option (List Char))
  | .emp, s => [(s, none)]
  | .cm m, s =>
    match s with
    | [] => []
    | c :: rest => if cmMatch m c then [(rest, none)] else []
  | .starG m, s => (starGMatch m s).map (fun r => (r, none))
  | .starL m, s => (starLMatch m s).map (fun r => (r, none))
  | .plusG m, s =>
    match s with
    | [] => []
    | c :: rest =>
      if cmMatch m c then (starGMatch m rest).map (fun r => (r, none)) else []
  | .opt m, s =>
    match s with
    | [] => [(s, none)]
    | c :: rest => if cmMatch m c then [(rest, none), (s, none)] else [(s, none)]
  | .seq a b, s =>
    (REmatch a s).flatMap fun p =>
      (REmatch b p.1).map fun q => (q.1, p.2 <|> q.2)
  | .group a, s =>
    (REmatch a s).map fun p => (p.1, some (s.take (s.length - p.1.length)))

/-- Model of `re.findall` over the text (returning the capture-group content of each
non-overlapping leftmost match, scanning left to right); `fuel` bounds the
recursion and is instantiated with `length + 1`, which always suffices since
every step either consumes at least one character or stops. -/
def findallAux (re : RE) : Nat → List Char → List String
  | 0, _ => []
  | fuel + 1, s =>
    match (REmatch re s).head? with
    | some p =>
      (p.2.getD []).asString ::
        (if p.1.length < s.length then findallAux re fuel p.1
         else match s with
           | [] => []
           | _ :: t => findallAux re fuel t)
    | none =>
      match s with
      | [] => []
      | _ :: t => findallAux re fuel t

/-- Model of `re.findall(pattern, text, re.IGNORECASE)` with a single capture group. -/
def findall (re : RE) (text : String) : List String :=
  findallAux re (text.length + 1) text.toList

/-- Sequence a list of regex pieces. -/
def seqs (l : List RE) : RE :=
  l.foldr RE.seq RE.emp

/-- A case-insensitive literal word. -/
def lits (s : String) : RE :=
  seqs (s.toList.map (fun c => RE.cm (.lit c)))

/-- The money capture group `(\$?[\d,]+\.?\d*[KMB]?)` shared by the
revenue/funding/valuation/market-size patterns. -/
def moneyGroup : RE :=
  .group (seqs [.opt (.lit '$'), .plusG .digitComma, .opt (.lit '.'),
                .starG .digit, .opt .kmb])

/-- The count capture group `(\d+[,\d]*)` of the customers patterns. -/
def countGroup : RE :=
  .group (seqs [.plusG .digit, .starG .digitComma])

/-- The percentage capture group `(\d+\.?\d*)` of the growth-rate patterns. -/
def pctGroup : RE :=
  .group (seqs [.plusG .digit, .opt (.lit '.'), .starG .digit])

/-- The five revenue regexes of `_initialize_patterns`
(pdf_financial_extractor.py:101-107). -/
def revP0 : RE := seqs [lits "revenue", .starL .any, moneyGroup]

def revP1 : RE := seqs [lits "sales", .starL .any, moneyGroup]

def revP2 : RE := seqs [lits "income", .starL .any, moneyGroup]

def revP3 : RE := seqs [moneyGroup, .starG .space, lits "revenue"]

def revP4 : RE := seqs [lits "annual", .plusG .space, lits "revenue", .starL .any, moneyGroup]

def revenuePatterns : List RE := [revP0, revP1, revP2, revP3, revP4]

/-- The funding regexes (pdf_financial_extractor.py:108-114). -/
def fundingPatterns : List RE :=
  [seqs [lits "raising", .starL .any, moneyGroup],
   seqs [lits "funding", .starL .any, moneyGroup],
   seqs [lits "investment", .starL .any, moneyGroup],
   seqs [moneyGroup, .starG .space, lits "raise"],
   seqs [lits "seeking", .starL .any, moneyGroup]]

/-- The valuation regexes (pdf_financial_extractor.py:115-120). -/
def valuationPatterns : List RE :=
  [seqs [lits "valuation", .starL .any, moneyGroup],
   seqs [lits "valued", .plusG .space, lits "at", .starL .any, moneyGroup],
   seqs [lits "worth", .starL .any, moneyGroup],
   seqs [moneyGroup, .starG .space, lits "valuation"]]

/-- The market-size regexes (pdf_financial_extractor.py:121-127). -/
def marketSizePatterns : List RE :=
  [seqs [lits "market", .plusG .space, lits "size", .starL .any, moneyGroup],
   seqs [lits "TAM", .starL .any, moneyGroup],
   seqs [lits "SAM", .starL .any, moneyGroup],
   seqs [lits "SOM", .starL .any, moneyGroup],
   seqs [lits "total", .plusG .space, lits "addressable", .plusG .space,
         lits "market", .starL .any, moneyGroup]]

/-- The customers regexes (pdf_financial_extractor.py:128-133). -/
def customersPatterns : List RE :=
  [seqs [countGroup, .starG .space, lits "customers"],
   seqs [countGroup, .starG .space, lits "users"],
   seqs [countGroup, .starG .space, lits "clients"],
   seqs [lits "user", .plusG .space, lits "base", .starL .any, countGroup]]

/-- The team-size regexes (pdf_financial_extractor.py:134-139). -/
def teamSizePatterns : List RE :=
  [seqs [lits "team", .starL .any, .group (.plusG .digit), .starG .space, lits "people"],
   seqs [.group (.plusG .digit), .starG .space, lits "employees"],
   seqs [.group (.plusG .digit), .starG .space, lits "team", .plusG .space, lits "members"],
   seqs [lits "founded", .plusG .space, lits "by", .starL .any, .group (.plusG .digit)]]

/-- The growth-rate regexes (pdf_financial_extractor.py:140-145). -/
def growthRatePatterns : List RE :=
  [seqs [pctGroup, .cm (.lit '%'), .starG .space, lits "growth"],
   seqs [lits "growing", .starL .any, pctGroup, .cm (.lit '%')],
   seqs [pctGroup, .cm (.lit '%'), .starG .space, lits "increase"],
   seqs [lits "growth", .plusG .space, lits "rate", .starL .any, pctGroup,
         .cm (.lit '%')]]

/-- Model of `ProductionPDFExtractor._initialize_patterns`
(pdf_financial_extractor.py:98-146): the fixed per-metric regex lists, in
dict insertion order. -/
def financial_patterns : List (String × List RE) :=
  [("revenue", revenuePatterns), ("funding", fundingPatterns),
   ("valuation", valuationPatterns), ("market_size", marketSizePatterns),
   ("customers", customersPatterns), ("team_size", teamSizePatterns),
   ("growth_rate", growthRatePatterns)]

/-- Model of `np.median`: middle element of the sorted values, or the mean of the two
middle elements for an even count (exact on rationals). -/
def npMedian (l : List ℚ) : ℚ :=
  let s := List.insertionSort (· ≤ ·) l
  if s.length % 2 = 1 then s.getD (s.length / 2) 0
  else (s.getD (s.length / 2 - 1) 0 + s.getD (s.length / 2) 0) / 2

/-- The `values` list accumulated by `extract_financial_metrics`
(pdf_financial_extractor.py:226-234) for one metric type: every regex match,
parsed, kept only when the parse succeeds AND is truthy
(`if parsed_value:` — a parse result of `0.0` is falsy and dropped). -/
def metricValues (pats : List RE) (text : String) : List ℚ :=
  pats.flatMap fun p =>
    (findall p text).filterMap fun m =>
      match parse_financial_value m with
      | some v => if v = 0 then none else some v
      | none => none

/-- The values list as the claim words it: every match that the numeric
parser parsed successfully (no truthiness filter). -/
def allParsedValues (pats : List RE) (text : String) : List ℚ :=
  pats.flatMap fun p => (findall p text).filterMap parse_financial_value

/-- Model of `ProductionPDFExtractor.extract_financial_metrics`
(pdf_financial_extractor.py:222-241): for each metric type, the median of
its truthy parsed matches; the key is present only when that list is
nonempty. -/
def extract_financial_metrics (text : String) : List (String × ℚ) :=
  financial_patterns.filterMap fun mp =>
    if metricValues mp.2 text ≠ [] then some (mp.1, npMedian (metricValues mp.2 text))
    else none

/-- Model of `extract_metrics` as the claim words it: median over all successfully
parsed matches, key present iff at least one match parsed. -/
def extract_metrics_spec (text : String) : List (String × ℚ) :=
  financial_patterns.filterMap fun mp =>
    if allParsedValues mp.2 text ≠ [] then
      some (mp.1, npMedian (allParsedValues mp.2 text))
    else none

/-- Lookup in the metrics dict. -/
def mlookup (l : List (String × ℚ)) (k : String) : Option ℚ :=
  (l.find? (fun p => p.1 = k)).map (·.2)

/-! ### Ensemble predictor (`production_ensemble_predictor.py`) -/

/-- Model of `ProductionStartupFeatures` (production_ensemble_predictor.py:34-95) with
its dataclass defaults; string fields that no score reads are kept for
completeness. -/
structure ProductionStartupFeatures where
  company_name : String := ""
  industry : String := "Technology"
  founded_year : ℤ := 2020
  team_size : ℤ := 5
  location : String := "Unknown"
  business_stage : String := "Seed"
  funding_total_usd : ℚ := 0
  funding_rounds : ℤ := 0
  current_revenue_usd : ℚ := 0
  projected_revenue_y1 : ℚ := 0
  projected_revenue_y3 : ℚ := 0
  burn_rate_monthly : ℚ := 0
  runway_months : ℚ := 0
  gross_margin_percent : ℚ := 0
  market_size_billions : ℚ := 0
  addressable_market_billions : ℚ := 0
  market_growth_rate : ℚ := 0
  competition_level : ℤ := 3
  competitive_advantage_score : ℚ := 1/2
  founder_experience_years : ℚ := 0
  team_technical_score : ℚ := 1/2
  team_business_score : ℚ := 1/2
  advisor_quality_score : ℚ := 1/2
  product_readiness_score : ℚ := 1/2
  tech_differentiation_score : ℚ := 1/2
  user_traction_score : ℚ := 0
  product_market_fit_score : ℚ := 0
  business_model_clarity : ℚ := 1/2
  revenue_model_strength : ℚ := 1/2
  scalability_score : ℚ := 1/2
  go_to_market_score : ℚ := 1/2
  market_risk_score : ℚ := 1/2
  technical_risk_score : ℚ := 1/2
  team_risk_score : ℚ := 1/2
  financial_risk_score : ℚ := 1/2
  regulatory_risk_score : ℚ := 1/2
  industry_trend_score : ℚ := 1/2
  economic_environment_score : ℚ := 1/2
  vc_funding_climate_score : ℚ := 1/2
  pitch_clarity_score : ℚ := 1/2
  financial_projections_realism : ℚ := 1/2
  presentation_quality_score : ℚ := 1/2

/-- Model of `_calculate_market_score` (production_ensemble_predictor.py:524-531). -/
def _calculate_market_score (f : ProductionStartupFeatures) : ℚ :=
  min (f.market_size_billions / 10) 1 * 30 + min (f.market_growth_rate / 20) 1 * 25 +
    (5 - (f.competition_level : ℚ)) / 4 * 20 + f.competitive_advantage_score * 25

/-- Model of `_calculate_team_score` (production_ensemble_predictor.py:533-540). -/
def _calculate_team_score (f : ProductionStartupFeatures) : ℚ :=
  min (f.founder_experience_years / 10) 1 * 30 + f.team_technical_score * 25 +
    f.team_business_score * 25 + f.advisor_quality_score * 20

/-- Model of `_calculate_product_score` (production_ensemble_predictor.py:542-549). -/
def _calculate_product_score (f : ProductionStartupFeatures) : ℚ :=
  f.product_readiness_score * 30 + f.tech_differentiation_score * 25 +
    f.user_traction_score * 25 + f.product_market_fit_score * 20

/-- Model of `_calculate_business_model_score` (production_ensemble_predictor.py:551-558). -/
def _calculate_business_model_score (f : ProductionStartupFeatures) : ℚ :=
  f.business_model_clarity * 25 + f.revenue_model_strength * 25 +
    f.scalability_score * 25 + f.go_to_market_score * 25

/-- Model of `_calculate_financial_score` (production_ensemble_predictor.py:560-567). -/
def _calculate_financial_score (f : ProductionStartupFeatures) : ℚ :=
  min (f.current_revenue_usd / 1000000) 1 * 25 +
    min ((f.projected_revenue_y1 / max f.current_revenue_usd 1) / 3) 1 * 25 +
    min (f.runway_months / 24) 1 * 25 + f.gross_margin_percent / 100 * 25

/-- Model of `_calculate_risk_score` (production_ensemble_predictor.py:569-577): each
risk input is scaled by 20 — which already sums to at most 100 when the five
inputs are in [0,1] — and then the sum is multiplied by a further 100. -/
def _calculate_risk_score (f : ProductionStartupFeatures) : ℚ :=
  (f.market_risk_score * 20 + f.technical_risk_score * 20 + f.team_risk_score * 20 +
    f.financial_risk_score * 20 + f.regulatory_risk_score * 20) * 100

/-- The probability/interval/category/recommendation block of
`predict_startup_success` (production_ensemble_predictor.py:472-486),
as a function of the ensemble probability and the standard deviation of the
base-model probabilities. -/
structure PredictionCore where
  success_probability : ℚ
  success_category : String
  confidence_interval : ℚ × ℚ
  investment_recommendation : String
deriving DecidableEq

/-- Lines 472-486 of `predict_startup_success`: the confidence interval is
`probability ± 1.96·σ` clipped to [0,1] and the category/recommendation
thresholds are 0.7 and 0.4. -/
def assemble_prediction (success_probability pred_std : ℚ) : PredictionCore :=
  let confidence_lower := max 0 (success_probability - 196/100 * pred_std)
  let confidence_upper := min 1 (success_probability + 196/100 * pred_std)
  if success_probability ≥ 7/10 then
    ⟨success_probability, "High Potential", (confidence_lower, confidence_upper), "INVEST"⟩
  else if success_probability ≥ 4/10 then
    ⟨success_probability, "Medium Potential", (confidence_lower, confidence_upper), "WATCH"⟩
  else
    ⟨success_probability, "Low Potential", (confidence_lower, confidence_upper), "PASS"⟩

/-! ### Training determinism and model persistence

The numeric libraries (numpy sampling, sklearn fitting, the scaler) are
deterministic functions once their seeds are fixed in the source
(`np.random.seed(42)` at the top of `create_enhanced_training_data`,
`random_state=42` on every estimator and on `train_test_split`); they are
modelled as explicit function parameters, and the global numpy generator as
explicitly threaded state. -/

/-- Global numpy generator state (abstract). -/
abbrev RngState := Nat

/-- Model of `np.random.seed(n)`: reset the global generator to the canonical state
for seed `n`, discarding whatever state it had. -/
def npRandomSeed (n : Nat) : RngState := n

/-- One abstract draw from the global generator — a stand-in for numpy's
distribution sampling; only determinism (being a function of the state)
matters to the claims. -/
def rngDraw (s : RngState) : RngState × ℚ :=
  (s * 1103515245 + 12345, (((s * 1103515245 + 12345) % 1000 : ℕ) : ℚ) / 1000)

/-- One sample of `create_enhanced_training_data`
(production_ensemble_predictor.py:244-331): correlated latent draws, the
fixed weighted `success_factors` combination, noise, and the 0.6 threshold
for the binary label. -/
structure TrainingSample where
  features : List ℚ
  is_success : Bool
deriving DecidableEq

def genSample (s0 : RngState) : TrainingSample × RngState :=
  let p1 := rngDraw s0
  let industry_trend := p1.2
  let p2 := rngDraw p1.1
  let market_size := p2.2 * industry_trend * 2
  let p3 := rngDraw p2.1
  let team_quality := p3.2
  let p4 := rngDraw p3.1
  let founder_experience := team_quality * 10 + p4.2
  let p5 := rngDraw p4.1
  let competitive_advantage := p5.2
  let p6 := rngDraw p5.1
  let product_readiness := team_quality * (7/10) + p6.2 * (3/10)
  let p7 := rngDraw p6.1
  let funding_total := p7.2 * 1000000
  let p8 := rngDraw p7.1
  let revenue := funding_total * p8.2 * (1/10)
  let p9 := rngDraw p8.1
  let success_factors :=
    team_quality * (1/4) + market_size / 10 * (1/5) + competitive_advantage * (3/20) +
      product_readiness * (3/20) + industry_trend * (1/10) +
      min (revenue / 100000) 1 * (3/20)
  let success_prob := min (success_factors + p9.2) 1
  (⟨[funding_total, revenue, market_size, competitive_advantage, founder_experience,
     product_readiness, industry_trend, team_quality],
    success_prob > 3/5⟩, p9.1)

def genSamples : Nat → RngState → List TrainingSample
  | 0, _ => []
  | n + 1, s =>
    let p := genSample s
    p.1 :: genSamples n p.2

/-- Model of `create_enhanced_training_data` (production_ensemble_predictor.py:236-337):
its body begins with `np.random.seed(42)`, so the dataset is a fixed function
of that seed, independent of the generator state `_g` the process had before
the call. -/
def create_enhanced_training_data (_g : RngState) (n_samples : Nat) : List TrainingSample :=
  genSamples n_samples (npRandomSeed 42)

/-- The predictor state carried by `ProductionEnsemblePredictor`; the fitted
model objects (type `M`) and scaler (type `S`) are opaque. -/
structure EnsembleState (M S : Type) where
  ensemble_model : M
  models : List (String × M)
  feature_scaler : S
  feature_columns : List String
  feature_importance : List (String × ℚ)
  model_performance : List (String × ℚ)
  model_version : String
  is_trained : Bool

/-- The blob written by `save_model` (production_ensemble_predictor.py:625-641). -/
structure ModelArtifact (M S : Type) where
  ensemble_model : M
  individual_models : List (String × M)
  feature_scaler : S
  feature_columns : List String
  feature_importance : List (String × ℚ)
  model_performance : List (String × ℚ)
  model_version : String

/-- Model of `save_model`: raises (`none`) unless trained; otherwise serializes the
full state. -/
def save_model {M S : Type} (st : EnsembleState M S) : Option (ModelArtifact M S) :=
  if st.is_trained then
    some ⟨st.ensemble_model, st.models, st.feature_scaler, st.feature_columns,
          st.feature_importance, st.model_performance, st.model_version⟩
  else none

/-- Model of `load_model` (production_ensemble_predictor.py:643-656): replaces every
field predictions read and sets `is_trained`. -/
def load_model {M S : Type} (st : EnsembleState M S) (a : ModelArtifact M S) :
    EnsembleState M S :=
  { st with
    ensemble_model := a.ensemble_model
    models := a.individual_models
    feature_scaler := a.feature_scaler
    feature_columns := a.feature_columns
    feature_importance := a.feature_importance
    model_performance := a.model_performance
    model_version := a.model_version
    is_trained := true }

/-- Model of `train_ensemble_model` (production_ensemble_predictor.py:339-430),
parameterized by the (deterministic, seeded) sklearn fitting step: generate
the synthetic dataset, fit, store the fitted objects, mark trained. -/
def train_ensemble_model {M S : Type}
    (fit : List TrainingSample → ModelArtifact M S)
    (st : EnsembleState M S) (g : RngState) : EnsembleState M S :=
  load_model st (fit (create_enhanced_training_data g 2000))

/-- The probability path of `predict_startup_success`
(production_ensemble_predictor.py:450-464): reorder the feature vector by the
trained column list, scale with the already-fitted scaler, apply the
ensemble. -/
def predict_success_probability {M S : Type}
    (applyScaler : S → List ℚ → List ℚ) (applyModel : M → List ℚ → ℚ)
    (st : EnsembleState M S) (x : String → ℚ) : ℚ :=
  applyModel st.ensemble_model (applyScaler st.feature_scaler (st.feature_columns.map x))

/-! ### Pipeline orchestrator (`production_pipeline.py`)

Python dicts are insertion-ordered association lists; `d[k] = v` and
`d.update(u)` overwrite in place.  `analyze_startup` aliases the caller's
`manual_data` dict whenever that dict is truthy (`ml_features =
input_data.manual_data or {}` yields the same object for a non-empty dict and
a fresh `{}` otherwise), so the model exposes both the final working feature
dict and the caller-visible state of `manual_data` after the call. -/

/-- Python values stored in the feature dict. -/
inductive PyVal where
  | num (q : ℚ)
  | str (s : String)
deriving DecidableEq

/-- An insertion-ordered Python dict. -/
abbrev Dict := List (String × PyVal)

/-- Model of `d[k] = v`: overwrite the (first) entry in place if present, else
append.  The dicts built by the pipeline are duplicate-free. -/
def dictSet : Dict → String → PyVal → Dict
  | [], k, v => [(k, v)]
  | a :: t, k, v => if a.1 = k then (k, v) :: t else a :: dictSet t k v

/-- Model of `d.update(u)`: apply `u`'s entries in order. -/
def dictUpdate (d : Dict) : Dict → Dict
  | [] => d
  | (k, v) :: rest => dictUpdate (dictSet d k v) rest

/-- Model of `d.get(k)` / `k in d`. -/
def dget (d : Dict) (k : String) : Option PyVal :=
  (d.find? (fun p => p.1 = k)).map (·.2)

/-- Model of `ExtractedFinancialData` (pdf_financial_extractor.py:35-84): the fields
read by `_convert_pdf_to_ml_features`, all defaulting to `None`, plus the two
confidence scores defaulting to `0.0`.  `ExtractedFinancialData()` — the
value returned for an unreadable PDF — is `{}`. -/
structure ExtractedFinancialData where
  current_revenue : Option ℚ := none
  projected_revenue_y1 : Option ℚ := none
  projected_revenue_y3 : Option ℚ := none
  revenue_growth_rate : Option ℚ := none
  funding_requested : Option ℚ := none
  funding_to_date : Option ℚ := none
  valuation : Option ℚ := none
  gross_margin : Option ℚ := none
  burn_rate : Option ℚ := none
  runway_months : Option ℚ := none
  market_size_tam : Option ℚ := none
  market_size_sam : Option ℚ := none
  team_size : Option ℤ := none
  customers : Option ℤ := none
  business_model : Option String := none
  extraction_confidence : ℚ := 0
  completeness_score : ℚ := 0
deriving DecidableEq

/-- Python truthiness of an optional float: `None` and `0.0` are falsy. -/
def truthyQ : Option ℚ → Bool
  | none => false
  | some v => v ≠ 0

/-- Python truthiness of an optional int. -/
def truthyZ : Option ℤ → Bool
  | none => false
  | some v => v ≠ 0

/-- Python truthiness of an optional string: `None` and `""` are falsy. -/
def truthyS : Option String → Bool
  | none => false
  | some s => s ≠ ""

/-- Model of `x or default` on optional strings (`input_data.industry or 'Technology'`). -/
def pyOrStr (o : Option String) (dflt : String) : String :=
  match o with
  | some s => if s = "" then dflt else s
  | none => dflt

/-- A guarded numeric dict entry. -/
def entQ (c : Bool) (v : ℚ) : Option PyVal :=
  if c then some (.num v) else none

/-- A guarded string dict entry. -/
def entS (c : Bool) (v : String) : Option PyVal :=
  if c then some (.str v) else none

/-- The assignments of `_convert_pdf_to_ml_features`
(production_pipeline.py:165-240) in source order: each one writes a distinct
fresh key into the fresh `features` dict, guarded by the truthiness of the
corresponding PDF field, so the resulting dict is exactly the present entries
in this order. -/
def convertEntries (p : ExtractedFinancialData) : List (String × Option PyVal) :=
  [("revenue", entQ (truthyQ p.current_revenue) (p.current_revenue.getD 0)),
   ("current_revenue_usd", entQ (truthyQ p.current_revenue) (p.current_revenue.getD 0)),
   ("projected_revenue_y1",
    entQ (truthyQ p.projected_revenue_y1) (p.projected_revenue_y1.getD 0)),
   ("projected_revenue_y3",
    entQ (truthyQ p.projected_revenue_y3) (p.projected_revenue_y3.getD 0)),
   ("growth_rate", entQ (truthyQ p.current_revenue && truthyQ p.projected_revenue_y1)
      (p.projected_revenue_y1.getD 0 / p.current_revenue.getD 1 - 1)),
   ("revenue_growth_rate",
    entQ (truthyQ p.current_revenue && truthyQ p.projected_revenue_y1)
      (p.projected_revenue_y1.getD 0 / p.current_revenue.getD 1 - 1)),
   ("funding_total", entQ (truthyQ p.funding_requested) (p.funding_requested.getD 0)),
   ("funding_total_usd", entQ (truthyQ p.funding_requested) (p.funding_requested.getD 0)),
   ("funding_rounds", entQ (truthyQ p.funding_to_date) 1),
   ("market_size", entQ (truthyQ p.market_size_tam) (p.market_size_tam.getD 0 / 1000000000)),
   ("market_size_billions",
    entQ (truthyQ p.market_size_tam) (p.market_size_tam.getD 0 / 1000000000)),
   ("addressable_market_billions",
    entQ (truthyQ p.market_size_sam) (p.market_size_sam.getD 0 / 1000000000)),
   ("team_size", entQ (truthyZ p.team_size) ((p.team_size.getD 0 : ℤ) : ℚ)),
   ("customers", entQ (truthyZ p.customers) ((p.customers.getD 0 : ℤ) : ℚ)),
   ("user_traction_score",
    entQ (truthyZ p.customers) (min (((p.customers.getD 0 : ℤ) : ℚ) / 10000) 1)),
   ("gross_margin_percent", entQ (truthyQ p.gross_margin) (p.gross_margin.getD 0)),
   ("burn_rate_monthly", entQ (truthyQ p.burn_rate) (p.burn_rate.getD 0)),
   ("runway_months", entQ (truthyQ p.runway_months) (p.runway_months.getD 0)),
   ("business_model", entS (truthyS p.business_model) (p.business_model.getD "")),
   ("business_model_clarity", entQ (truthyS p.business_model)
      (min (((p.business_model.getD "").length : ℚ) / 100) 1)),
   ("product_readiness_score",
    some (.num (if truthyQ p.current_revenue ∧ 0 < p.current_revenue.getD 0 then 8/10
                else if truthyZ p.customers ∧ 0 < p.customers.getD 0 then 6/10
                else 4/10))),
   ("extraction_confidence", some (.num p.extraction_confidence)),
   ("data_completeness", some (.num p.completeness_score))]

/-- Model of `_convert_pdf_to_ml_features` (production_pipeline.py:165-240): the
present entries, in assignment order. -/
def _convert_pdf_to_ml_features (p : ExtractedFinancialData) : Dict :=
  (convertEntries p).filterMap fun e => e.2.map fun v => (e.1, v)

/-- The ML prediction fields of `ProductionPredictionResult` that the
orchestrator reads. -/
structure MLPrediction where
  success_probability : ℚ := 1/2
  success_category : String := "Unknown"
  investment_recommendation : String := "WATCH"
  model_confidence : ℚ := 3/10
deriving DecidableEq

/-- Model of `run_agent_analysis` returns, on success, the dict
`{'agent_results': ..., 'processing_time': ...}` (production_pipeline.py:258-261)
— note it has NO `'confidence'` key, so `combine_analysis_results`' agent
branch can never fire. -/
structure AgentAnalysis where
  agent_results : String
  processing_time : ℚ
deriving DecidableEq

/-- The pipeline's collaborators: the raw PDF extractor (`none` = an
exception escaping `extract_financial_data`, caught by
`extract_features_from_pdf`), agent availability and the agent orchestrator,
and the ML predictor (`none` = an exception, caught by `run_ml_prediction`). -/
structure PipelineEnv where
  raw_extract : String → Option ExtractedFinancialData
  agents_available : Bool
  run_agent : String → Option AgentAnalysis
  predict : Dict → Option MLPrediction

/-- Model of `ProductionAnalysisInput` (production_pipeline.py:61-84). -/
structure AnalysisInput where
  company_name : String
  industry : Option String := none
  description : Option String := none
  pdf_path : Option String := none
  manual_data : Option Dict := none
  use_pdf_extraction : Bool := true
  use_ai_agents : Bool := true
  use_ml_prediction : Bool := true

/-- Model of `extract_features_from_pdf` (production_pipeline.py:144-163): on any
exception, `(ExtractedFinancialData(), {})`; otherwise the extracted data and
its converted feature dict. -/
def extract_features_from_pdf (env : PipelineEnv) (pdf_path : String) :
    ExtractedFinancialData × Dict :=
  match env.raw_extract pdf_path with
  | some d => (d, _convert_pdf_to_ml_features d)
  | none => ({}, [])

/-- Model of `run_ml_prediction` (production_pipeline.py:267-304): on an exception the
default result (probability 0.5, "Unknown", WATCH, confidence 0.3). -/
def run_ml_prediction (env : PipelineEnv) (features : Dict) : MLPrediction :=
  match env.predict features with
  | some r => r
  | none => {}

/-- Model of `combine_analysis_results` (production_pipeline.py:306-330): mean of the
ML confidence and — when a `pdf_data` object is present (any
`ExtractedFinancialData` instance is truthy) — the extraction confidence;
completeness from the PDF when present, else the 0.5 default.  The agent
branch requires a `'confidence'` key that `run_agent_analysis` never
produces. -/
def combine_analysis_results (ml : MLPrediction)
    (pdf_data : Option ExtractedFinancialData) (_agent : Option AgentAnalysis) :
    ℚ × ℚ :=
  let confidence_scores :=
    [ml.model_confidence] ++ (match pdf_data with
      | some d => [d.extraction_confidence]
      | none => [])
  let completeness_scores : List ℚ :=
    match pdf_data with
    | some d => [d.completeness_score]
    | none => []
  (confidence_scores.sum / confidence_scores.length,
   if completeness_scores = [] then 1/2
   else completeness_scores.sum / completeness_scores.length)

/-- The observable outcome of `analyze_startup`: the returned
`ProductionAnalysisResult` fields the claims refer to, the final working
feature dict, and the caller-visible state of the `manual_data` argument
after the call (mutated in place when it was aliased). -/
structure AnalysisOutcome where
  company_name : String
  ml_prediction : MLPrediction
  pdf_data : Option ExtractedFinancialData
  agent_analysis : Option AgentAnalysis
  components_used : List String
  overall_confidence : ℚ
  data_completeness : ℚ
  ml_features : Dict
  manual_data_after : Option Dict

/-- Model of `ml_features = input_data.manual_data or {}` (production_pipeline.py:348):
the caller's dict itself when truthy (non-None, non-empty), else a fresh `{}`. -/
def initialFeatures (inp : AnalysisInput) : Dict :=
  match inp.manual_data with
  | some d => if d = [] then [] else d
  | none => []

/-- Whether line 348 aliased the caller's `manual_data` object (in which
case every later in-place update is visible to the caller). -/
def manualAliased (inp : AnalysisInput) : Bool :=
  match inp.manual_data with
  | some d => d ≠ []
  | none => false

/-- The identity fields merged by `ml_features.update({...})`
(production_pipeline.py:351-355); `or` makes an empty `industry` /
`description` fall back like `None`. -/
def identityFields (inp : AnalysisInput) : Dict :=
  [("company_name", .str inp.company_name),
   ("industry", .str (pyOrStr inp.industry "Technology")),
   ("description", .str ((inp.description).getD ""))]

/-- Step 1 runs iff the flag is set and `pdf_path` is truthy
(production_pipeline.py:358). -/
def pdfStepRuns (inp : AnalysisInput) : Bool :=
  inp.use_pdf_extraction && (match inp.pdf_path with
    | some p => p ≠ ""
    | none => false)

/-- The working feature dict handed to the ML step: manual data, then the
identity fields, then — when step 1 ran — the PDF features, each merged with
`dict.update` (later writes overwrite earlier ones).
`extract_features_from_pdf` never raises, so step 1's `except` branch
(production_pipeline.py:364-365) is dead code. -/
def workingFeatures (env : PipelineEnv) (inp : AnalysisInput) : Dict :=
  let mf1 := dictUpdate (initialFeatures inp) (identityFields inp)
  if pdfStepRuns inp then
    dictUpdate mf1 (extract_features_from_pdf env ((inp.pdf_path).getD "")).2
  else mf1

/-- Model of `analyze_startup` (production_pipeline.py:332-441). -/
def analyze_startup (env : PipelineEnv) (inp : AnalysisInput) : AnalysisOutcome :=
  let pdf_data : Option ExtractedFinancialData :=
    if pdfStepRuns inp then some (extract_features_from_pdf env ((inp.pdf_path).getD "")).1
    else none
  let mf2 := workingFeatures env inp
  let comps1 : List String := if pdfStepRuns inp then ["PDF_EXTRACTION"] else []
  -- Step 2 (lines 367-379): "AI_AGENTS" is recorded whenever the branch is
  -- entered; `run_agent_analysis` itself never raises.
  let step2 : Bool := inp.use_ai_agents && env.agents_available
  let agent_analysis : Option AgentAnalysis :=
    if step2 then env.run_agent inp.company_name else none
  let comps2 := comps1 ++ (if step2 then ["AI_AGENTS"] else [])
  -- Step 3 (lines 381-406): the dummy prediction has model_confidence 0.5
  let ml_prediction : MLPrediction :=
    if inp.use_ml_prediction then run_ml_prediction env mf2
    else ⟨1/2, "Analysis Skipped", "WATCH", 1/2⟩
  let comps3 := comps2 ++ (if inp.use_ml_prediction then ["ML_PREDICTION"] else [])
  -- Step 4 (lines 408-412)
  let conf := combine_analysis_results ml_prediction pdf_data agent_analysis
  { company_name := inp.company_name
    ml_prediction := ml_prediction
    pdf_data := pdf_data
    agent_analysis := agent_analysis
    components_used := comps3
    overall_confidence := conf.1
    data_completeness := conf.2
    ml_features := mf2
    manual_data_after := match inp.manual_data with
      | some d => if manualAliased inp then some mf2 else some d
      | none => none }

/-- The spec's §8 median scenario text (three revenue mentions). -/
def c6ExampleText : String := "revenue: $1M\nrevenue: $3M\nrevenue: $2M"

/-- A text whose only extra revenue mention parses to zero. -/
def c6ZeroText : String := "revenue: $0\nrevenue: $2M"

/-- A text whose only revenue mention parses to zero. -/
def c9ZeroText : String := "revenue: $0"

/-- Two texts whose revenue mentions are permutations of one another. -/
def c6PermTextA : String := "revenue: $1M\nrevenue: $2M\nrevenue: $1M"

def c6PermTextB : String := "revenue: $2M\nrevenue: $1M\nrevenue: $1M"

/-- Environment for exercising the pipeline: extractor yields a revenue of
$2M, no agents, ML predictor succeeds with the default result. -/
def c2Env : PipelineEnv :=
  { raw_extract := fun _ => some { current_revenue := some 2000000 }
    agents_available := false
    run_agent := fun _ => none
    predict := fun _ => some {} }

/-- Input with a manual revenue of 100 and a PDF. -/
def c2Inp : AnalysisInput :=
  { company_name := "Acme"
    pdf_path := some "deck.pdf"
    manual_data := some [("revenue", .num 100)] }

/-- Environment where the PDF is unreadable (the extractor returns its empty
default structure, as `extract_financial_data` does when no text can be
extracted) and the ML predictor reports confidence 0.8. -/
def c3Env : PipelineEnv :=
  { raw_extract := fun _ => some {}
    agents_available := false
    run_agent := fun _ => none
    predict := fun _ => some { model_confidence := 4/5 } }

/-- The spec's resilience scenario input: a pdf path that does not exist. -/
def c3Inp : AnalysisInput :=
  { company_name := "Acme", pdf_path := some "/does/not/exist" }

/-- A minimal working environment. -/
def c4Env : PipelineEnv :=
  { raw_extract := fun _ => some {}
    agents_available := false
    run_agent := fun _ => none
    predict := fun _ => some {} }

/-- An input violating the caller contract: empty company name. -/
def c4Inp : AnalysisInput := { company_name := "" }

/-- An input whose `manual_data` is a non-None but empty dict. -/
def c10Inp : AnalysisInput := { company_name := "Acme", manual_data := some [] }

/-- A trained predictor state over trivial model/scaler types, for
instantiating the persistence theorem. -/
def c8State : EnsembleState Unit Unit :=
  ⟨(), [], (), ["funding_total_usd"], [], [], "2.0.0", true⟩

def c8Artifact : ModelArtifact Unit Unit :=
  ⟨(), [], (), ["funding_total_usd"], [], [], "2.0.0"⟩

def c8Fit : List TrainingSample → ModelArtifact Unit Unit := fun _ => c8Artifact

/-! ### Proofs -/


lemma splitDigits_append (cs : List Char) :
    (splitDigits cs).1 ++ (splitDigits cs).2 = cs := by
  induction cs with
  | nil => simp [splitDigits]
  | cons c t ih =>
    by_cases h : c.isDigit <;> simp [splitDigits, h, ih]

lemma splitDigits_digits (cs : List Char) :
    ∀ c ∈ (splitDigits cs).1, c.isDigit := by
  induction cs with
  | nil => simp [splitDigits]
  | cons c t ih =>
    by_cases h : c.isDigit
    · simp only [splitDigits, h, if_true]
      intro x hx
      rcases List.mem_cons.mp hx with hx | hx
      · exact hx ▸ h
      · exact ih x hx
    · simp [splitDigits, h]

lemma getLast?_cons_of_ne_nil {α : Type} (a : α) (l : List α) (h : l ≠ []) :
    (a :: l).getLast? = l.getLast? := by
  match l, h with
  | b :: v, _ => exact List.getLast?_cons_cons ..

lemma getLast?_stripSign (t : List Char) (h : stripSign t ≠ []) :
    t.getLast? = (stripSign t).getLast? := by
  match t with
  | [] => simp [stripSign] at h
  | c :: u =>
    by_cases hs : c = '+' ∨ c = '-'
    · have hu : stripSign (c :: u) = u := by simp [stripSign, hs]
      rw [hu] at h ⊢
      exact getLast?_cons_of_ne_nil c u h
    · simp [stripSign, hs]

lemma getLast?_digits_of_splitDigits (t1 : List Char)
    (h1 : (splitDigits t1).1 ≠ []) (h2 : (splitDigits t1).2 = []) :
    ∃ d, t1.getLast? = some d ∧ d.isDigit := by
  have happ := splitDigits_append t1
  rw [h2, List.append_nil] at happ
  refine ⟨(splitDigits t1).1.getLast h1, ?_, ?_⟩
  · have heq : (splitDigits t1).1.getLast? = t1.getLast? := by rw [happ]
    rw [← heq]
    exact List.getLast?_eq_getLast _ h1
  · exact splitDigits_digits t1 _ (List.getLast_mem h1)

lemma pyFloatExp_last (r2 : List Char) (e : ℚ) (h : pyFloatExp r2 = some e)
    (hne : r2 ≠ []) : ∃ d, r2.getLast? = some d ∧ d.isDigit := by
  match r2, hne with
  | c :: t, _ =>
    unfold pyFloatExp at h
    by_cases hc : c = 'e' ∨ c = 'E'
    · simp only [hc, if_true] at h
      by_cases hbad : (splitDigits (stripSign t)).1 = [] ∨ (splitDigits (stripSign t)).2 ≠ []
      · simp [hbad] at h
      · push_neg at hbad
        obtain ⟨hed, hr3⟩ := hbad
        obtain ⟨d, hd, hdig⟩ := getLast?_digits_of_splitDigits (stripSign t) hed hr3
        have hts : stripSign t ≠ [] := by
          intro hts
          rw [hts] at hed
          exact hed (by simp [splitDigits])
        have ht : t ≠ [] := by
          intro ht
          rw [ht] at hts
          exact hts rfl
        refine ⟨d, ?_, hdig⟩
        rw [getLast?_cons_of_ne_nil c t ht, getLast?_stripSign t hts, hd]
    · simp [hc] at h

/-- Any string accepted by the `float()` model ends in a digit or a dot. -/
lemma pyFloatBody_last (sgn : ℚ) (cs1 : List Char) (v : ℚ)
    (h : pyFloatBody sgn cs1 = some v) :
    ∃ d, cs1.getLast? = some d ∧ (d.isDigit ∨ d = '.') := by
  unfold pyFloatBody at h
  rcases hsd : splitDigits cs1 with ⟨ip, r1⟩
  rw [hsd] at h
  simp only at h
  have happ : ip ++ r1 = cs1 := by rw [← splitDigits_append cs1, hsd]
  have hipdig : ∀ c ∈ ip, c.isDigit := by
    have h' := splitDigits_digits cs1
    rw [hsd] at h'
    exact h'
  by_cases hdot : r1.head? = some '.'
  · rw [if_pos hdot] at h
    rcases hsd2 : splitDigits r1.tail with ⟨fp, r2⟩
    rw [hsd2] at h
    simp only at h
    have happ2 : fp ++ r2 = r1.tail := by rw [← splitDigits_append r1.tail, hsd2]
    have hfpdig : ∀ c ∈ fp, c.isDigit := by
      have h' := splitDigits_digits r1.tail
      rw [hsd2] at h'
      exact h'
    have hr1struct : r1 = '.' :: r1.tail := by
      match r1, hdot with
      | x :: t, hdot => simp_all
    unfold pyFloatFrac at h
    by_cases hguard : ip = [] ∧ fp = []
    · simp [hguard] at h
    · rw [if_neg hguard, Option.map_eq_some'] at h
      obtain ⟨e, he, -⟩ := h
      by_cases hr2e : r2 = []
      · rw [hr2e, List.append_nil] at happ2
        by_cases hfpe : fp = []
        · refine ⟨'.', ?_, Or.inr rfl⟩
          rw [← happ, hr1struct, ← happ2, hfpe]
          exact List.getLast?_append_cons ip '.' []
        · refine ⟨fp.getLast hfpe, ?_, Or.inl (hfpdig _ (List.getLast_mem hfpe))⟩
          rw [← happ, hr1struct, List.getLast?_append_cons, ← happ2,
            getLast?_cons_of_ne_nil '.' fp hfpe]
          exact List.getLast?_eq_getLast _ hfpe
      · obtain ⟨d, hd, hdig⟩ := pyFloatExp_last r2 e he hr2e
        refine ⟨d, ?_, Or.inl hdig⟩
        have htail : r1.tail ≠ [] := by
          rw [← happ2]
          intro hx
          exact hr2e (List.append_eq_nil.mp hx).2
        rw [← happ, hr1struct, List.getLast?_append_cons,
          getLast?_cons_of_ne_nil '.' _ htail, ← happ2,
          List.getLast?_append_of_ne_nil _ hr2e, hd]
  · rw [if_neg hdot] at h
    unfold pyFloatFrac at h
    by_cases hguard : ip = [] ∧ ([] : List Char) = []
    · rw [if_pos hguard] at h
      exact absurd h (by simp)
    · rw [if_neg hguard, Option.map_eq_some'] at h
      obtain ⟨e, he, -⟩ := h
      have hipne : ip ≠ [] := by
        intro hip
        exact hguard ⟨hip, rfl⟩
      by_cases hr1e : r1 = []
      · refine ⟨ip.getLast hipne, ?_, Or.inl (hipdig _ (List.getLast_mem hipne))⟩
        rw [← happ, hr1e, List.append_nil]
        exact List.getLast?_eq_getLast _ hipne
      · obtain ⟨d, hd, hdig⟩ := pyFloatExp_last r1 e he hr1e
        refine ⟨d, ?_, Or.inl hdig⟩
        rw [← happ, List.getLast?_append_of_ne_nil _ hr1e, hd]

/-- Any string accepted by the `float()` model ends in a digit or a dot. -/
lemma pyFloat?_last_char (s : String) (v : ℚ) (h : pyFloat? s = some v) :
    ∃ d, s.toList.getLast? = some d ∧ (d.isDigit ∨ d = '.') := by
  unfold pyFloat? at h
  obtain ⟨d, hd, hp⟩ := pyFloatBody_last _ _ _ h
  have hne : stripSign s.toList ≠ [] := by
    intro hx
    rw [hx] at hd
    exact absurd hd (by simp)
  exact ⟨d, by rw [getLast?_stripSign _ hne, hd], hp⟩

lemma pyFloat?_asString_none (cs : List Char) (d : Char)
    (hd : cs.getLast? = some d) (hnd : ¬ d.isDigit) (hdot : d ≠ '.') :
    pyFloat? cs.asString = none := by
  cases h : pyFloat? cs.asString with
  | none => rfl
  | some v =>
    obtain ⟨d', hd', hp⟩ := pyFloat?_last_char _ _ h
    have hcs : cs.asString.toList = cs := rfl
    rw [hcs, hd] at hd'
    cases hd'
    rcases hp with hp | hp
    · exact absurd hp hnd
    · exact absurd hp hdot

lemma endsWithUpper_of_getLast (cs : List Char) (d c lc : Char)
    (hd : cs.getLast? = some d) :
    endsWithUpper cs c lc = (d = c || d = lc) := by
  unfold endsWithUpper
  rw [hd]

/-- C7 core: the code's `parse_financial_value` computes exactly the
function the spec describes, on every input string. -/
lemma parse_financial_value_eq_spec (s : String) :
    parse_financial_value s = parse_value_spec s := by
  by_cases hs : s = ""
  · subst hs
    decide
  · unfold parse_financial_value parse_value_spec
    rw [if_neg hs]
    cases hlast : (pyCleanValue s).getLast? with
    | none =>
      have hcs : pyCleanValue s = [] := by
        cases h : pyCleanValue s with
        | nil => rfl
        | cons a t => rw [h] at hlast; simp [List.getLast?] at hlast
      simp [parse_suffixed, endsWithUpper, hlast, hcs]
      decide
    | some d =>
      rw [Option.some_bind]
      have hK := endsWithUpper_of_getLast _ _ 'K' 'k' hlast
      have hM := endsWithUpper_of_getLast _ _ 'M' 'm' hlast
      have hB := endsWithUpper_of_getLast _ _ 'B' 'b' hlast
      by_cases hdK : d = 'K' ∨ d = 'k'
      · have hEW : endsWithUpper (pyCleanValue s) 'K' 'k' = true := by
          rw [hK]; rcases hdK with h | h <;> simp [h]
        rw [if_pos hdK]
        cases hpf : pyFloat? (pyCleanValue s).dropLast.asString with
        | some r => simp [parse_suffixed, hEW, hpf]
        | none =>
          have hEWM : endsWithUpper (pyCleanValue s) 'M' 'm' = false := by
            rw [hM]; rcases hdK with h | h <;> simp [h]
          have hEWB : endsWithUpper (pyCleanValue s) 'B' 'b' = false := by
            rw [hB]; rcases hdK with h | h <;> simp [h]
          have hwhole : pyFloat? (pyCleanValue s).asString = none := by
            refine pyFloat?_asString_none _ d hlast ?_ ?_ <;>
              rcases hdK with h | h <;> subst h <;> decide
          simp [parse_suffixed, hEW, hEWM, hEWB, hpf, hwhole]
      · by_cases hdM : d = 'M' ∨ d = 'm'
        · have hEWK : endsWithUpper (pyCleanValue s) 'K' 'k' = false := by
            rw [hK]
            rcases hdM with h | h <;> simp [h]
          have hEW : endsWithUpper (pyCleanValue s) 'M' 'm' = true := by
            rw [hM]; rcases hdM with h | h <;> simp [h]
          rw [if_neg hdK, if_pos hdM]
          cases hpf : pyFloat? (pyCleanValue s).dropLast.asString with
          | some r => simp [parse_suffixed, hEWK, hEW, hpf]
          | none =>
            have hEWB : endsWithUpper (pyCleanValue s) 'B' 'b' = false := by
              rw [hB]; rcases hdM with h | h <;> simp [h]
            have hwhole : pyFloat? (pyCleanValue s).asString = none := by
              refine pyFloat?_asString_none _ d hlast ?_ ?_ <;>
                rcases hdM with h | h <;> subst h <;> decide
            simp [parse_suffixed, hEWK, hEW, hEWB, hpf, hwhole]
        · by_cases hdB : d = 'B' ∨ d = 'b'
          · have hEWK : endsWithUpper (pyCleanValue s) 'K' 'k' = false := by
              rw [hK]; rcases hdB with h | h <;> simp [h]
            have hEWM : endsWithUpper (pyCleanValue s) 'M' 'm' = false := by
              rw [hM]; rcases hdB with h | h <;> simp [h]
            have hEW : endsWithUpper (pyCleanValue s) 'B' 'b' = true := by
              rw [hB]; rcases hdB with h | h <;> simp [h]
            rw [if_neg hdK, if_neg hdM, if_pos hdB]
            cases hpf : pyFloat? (pyCleanValue s).dropLast.asString with
            | some r => simp [parse_suffixed, hEWK, hEWM, hEW, hpf]
            | none =>
              have hwhole : pyFloat? (pyCleanValue s).asString = none := by
                refine pyFloat?_asString_none _ d hlast ?_ ?_ <;>
                  rcases hdB with h | h <;> subst h <;> decide
              simp [parse_suffixed, hEWK, hEWM, hEW, hpf, hwhole]
          · have hEWK : endsWithUpper (pyCleanValue s) 'K' 'k' = false := by
              rw [hK]
              simp only [Bool.or_eq_false_iff, decide_eq_false_iff_not]
              exact ⟨fun h => hdK (Or.inl h), fun h => hdK (Or.inr h)⟩
            have hEWM : endsWithUpper (pyCleanValue s) 'M' 'm' = false := by
              rw [hM]
              simp only [Bool.or_eq_false_iff, decide_eq_false_iff_not]
              exact ⟨fun h => hdM (Or.inl h), fun h => hdM (Or.inr h)⟩
            have hEWB : endsWithUpper (pyCleanValue s) 'B' 'b' = false := by
              rw [hB]
              simp only [Bool.or_eq_false_iff, decide_eq_false_iff_not]
              exact ⟨fun h => hdB (Or.inl h), fun h => hdB (Or.inr h)⟩
            rw [if_neg hdK, if_neg hdM, if_neg hdB]
            simp [parse_suffixed, hEWK, hEWM, hEWB]

/-! #### Dict lemmas -/

/-- Keys of a dict, in order. -/
def dictKeys (d : Dict) : List String :=
  d.map (·.1)

lemma dget_cons_self (a : String × PyVal) (t : Dict) (k : String) (h : a.1 = k) :
    dget (a :: t) k = some a.2 := by
  unfold dget
  rw [List.find?_cons_of_pos _ (by simp [h])]
  rfl

lemma dget_cons_ne (a : String × PyVal) (t : Dict) (k : String) (h : ¬ a.1 = k) :
    dget (a :: t) k = dget t k := by
  unfold dget
  rw [List.find?_cons_of_neg _ (by simp [h])]

lemma dget_dictSet (d : Dict) (k k' : String) (v : PyVal) :
    dget (dictSet d k v) k' = if k' = k then some v else dget d k' := by
  induction d with
  | nil =>
    show dget [(k, v)] k' = _
    by_cases h : k' = k
    · rw [if_pos h, dget_cons_self _ _ _ h.symm]
    · rw [if_neg h, dget_cons_ne _ _ _ (fun hx => h hx.symm)]
  | cons a t ih =>
    show dget (if a.1 = k then (k, v) :: t else a :: dictSet t k v) k' = _
    by_cases hak : a.1 = k
    · rw [if_pos hak]
      by_cases h : k' = k
      · rw [if_pos h, dget_cons_self _ _ _ h.symm]
      · rw [if_neg h, dget_cons_ne _ _ _ (fun hx => h hx.symm),
          dget_cons_ne a t k' (fun hx => h ((hx.symm.trans hak).symm).symm)]
    · rw [if_neg hak]
      by_cases h : k' = a.1
      · have hne : ¬ k' = k := fun hx => hak (h.symm.trans hx)
        rw [if_neg hne, dget_cons_self a (dictSet t k v) k' h.symm,
          dget_cons_self a t k' h.symm]
      · rw [dget_cons_ne a (dictSet t k v) k' (fun hx => h hx.symm), ih]
        by_cases h2 : k' = k
        · rw [if_pos h2, if_pos h2]
        · rw [if_neg h2, if_neg h2, dget_cons_ne a t k' (fun hx => h hx.symm)]

lemma dget_dictUpdate_of_none (u d : Dict) (k : String) (h : dget u k = none) :
    dget (dictUpdate d u) k = dget d k := by
  induction u generalizing d with
  | nil => rfl
  | cons a t ih =>
    have hne : k ≠ a.1 := by
      intro hx
      unfold dget at h
      rw [List.find?_cons_of_pos _ (by simp [hx])] at h
      exact absurd h (by simp)
    have ht : dget t k = none := by
      unfold dget at h ⊢
      rwa [List.find?_cons_of_neg _ (by simp; exact fun hx => hne hx.symm)] at h
    show dget (dictUpdate (dictSet d a.1 a.2) t) k = dget d k
    rw [ih _ ht, dget_dictSet, if_neg hne]

lemma dget_eq_none_of_not_mem (d : Dict) (k : String) (h : k ∉ dictKeys d) :
    dget d k = none := by
  unfold dget
  rw [List.find?_eq_none.mpr]
  · rfl
  · intro x hx
    simp only [decide_eq_true_eq]
    intro hxk
    exact h (hxk ▸ List.mem_map_of_mem (·.1) hx)

lemma dget_dictUpdate_of_isSome (u d : Dict) (k : String)
    (hnd : (dictKeys u).Nodup) (h : (dget u k).isSome) :
    dget (dictUpdate d u) k = dget u k := by
  induction u generalizing d with
  | nil => simp [dget, List.find?] at h
  | cons a t ih =>
    rw [show dictKeys (a :: t) = a.1 :: dictKeys t from rfl, List.nodup_cons] at hnd
    obtain ⟨hna, hnt⟩ := hnd
    show dget (dictUpdate (dictSet d a.1 a.2) t) k = dget (a :: t) k
    by_cases hk : a.1 = k
    · have ht : dget t k = none := dget_eq_none_of_not_mem t k (hk ▸ hna)
      rw [dget_dictUpdate_of_none t _ k ht, dget_dictSet, if_pos hk.symm,
        dget_cons_self a t k hk]
    · rw [dget_cons_ne a t k hk] at h ⊢
      exact ih _ hnt h

lemma filterMap_keys_sublist (l : List (String × Option PyVal)) :
    ((l.filterMap fun e => e.2.map fun v => (e.1, v)).map (·.1)).Sublist (l.map (·.1)) := by
  induction l with
  | nil => simp
  | cons a t ih =>
    cases h : a.2 with
    | none =>
      rw [List.filterMap_cons, h]
      exact ih.trans (List.sublist_cons_self _ _)
    | some v =>
      rw [List.filterMap_cons, h]
      exact List.Sublist.cons₂ _ ih

/-- The fixed key list of `_convert_pdf_to_ml_features`. -/
def convertKeys : List String :=
  ["revenue", "current_revenue_usd", "projected_revenue_y1", "projected_revenue_y3",
   "growth_rate", "revenue_growth_rate", "funding_total", "funding_total_usd",
   "funding_rounds", "market_size", "market_size_billions",
   "addressable_market_billions", "team_size", "customers", "user_traction_score",
   "gross_margin_percent", "burn_rate_monthly", "runway_months", "business_model",
   "business_model_clarity", "product_readiness_score", "extraction_confidence",
   "data_completeness"]

lemma convertEntries_keys (p : ExtractedFinancialData) :
    (convertEntries p).map (·.1) = convertKeys := rfl

lemma convert_keys_sublist (p : ExtractedFinancialData) :
    (dictKeys (_convert_pdf_to_ml_features p)).Sublist convertKeys := by
  rw [← convertEntries_keys p]
  exact filterMap_keys_sublist (convertEntries p)

lemma convert_keysNodup (p : ExtractedFinancialData) :
    (dictKeys (_convert_pdf_to_ml_features p)).Nodup :=
  (convert_keys_sublist p).nodup (by decide)

lemma convert_dget_none_of_not_key (p : ExtractedFinancialData) (k : String)
    (h : k ∉ convertKeys) : dget (_convert_pdf_to_ml_features p) k = none :=
  dget_eq_none_of_not_mem _ _ fun hm => h ((convert_keys_sublist p).subset hm)

lemma extract_keysNodup (env : PipelineEnv) (pth : String) :
    (dictKeys (extract_features_from_pdf env pth).2).Nodup := by
  unfold extract_features_from_pdf
  cases env.raw_extract pth with
  | some d => exact convert_keysNodup d
  | none => simp [dictKeys]

lemma extract_dget_none_of_not_key (env : PipelineEnv) (pth : String) (k : String)
    (h : k ∉ convertKeys) : dget (extract_features_from_pdf env pth).2 k = none := by
  unfold extract_features_from_pdf
  cases env.raw_extract pth with
  | some d => exact convert_dget_none_of_not_key d k h
  | none => rfl

/-! #### Extraction lemmas -/

/-- The truthiness filter in `extract_financial_metrics` keeps exactly the
nonzero successfully-parsed values, in order. -/
lemma metricValues_eq_filter (pats : List RE) (t : String) :
    metricValues pats t = (allParsedValues pats t).filter (fun v => v ≠ 0) := by
  unfold metricValues allParsedValues
  rw [List.filter_flatMap]
  congr 1
  funext p
  induction findall p t with
  | nil => rfl
  | cons m ms ih =>
    rw [List.filterMap_cons, List.filterMap_cons]
    cases hp : parse_financial_value m with
    | none => simpa using ih
    | some v =>
      by_cases hv : v = 0
      · simp [hv, ih]
      · simp [hv, ih]

/-- Model of `np.median` depends only on the multiset of values (sorting first). -/
lemma npMedian_perm (l1 l2 : List ℚ) (h : l1.Perm l2) : npMedian l1 = npMedian l2 := by
  unfold npMedian
  have hs : List.insertionSort (· ≤ ·) l1 = List.insertionSort (· ≤ ·) l2 :=
    List.eq_of_perm_of_sorted
      (((List.perm_insertionSort _ l1).trans h).trans (List.perm_insertionSort _ l2).symm)
      (List.sorted_insertionSort _ l1) (List.sorted_insertionSort _ l2)
  rw [hs]

/-- Lookup in the output of a by-metric `filterMap` (shared by the code's
extractor and the claim's variant, which differ only in the values list), for
a key absent from the metric list. -/
lemma mlookup_vf_none (vf : List RE → String → List ℚ) (l : List (String × List RE))
    (t k : String) (hk : ∀ mp ∈ l, mp.1 ≠ k) :
    mlookup (l.filterMap fun mp =>
      if vf mp.2 t ≠ [] then some (mp.1, npMedian (vf mp.2 t)) else none) k = none := by
  induction l with
  | nil => rfl
  | cons a rest ih =>
    have ha : a.1 ≠ k := hk a (List.mem_cons_self a rest)
    have hrest : ∀ mp ∈ rest, mp.1 ≠ k := fun mp hm => hk mp (List.mem_cons_of_mem a hm)
    rw [List.filterMap_cons]
    by_cases hc : vf a.2 t ≠ []
    · rw [if_pos hc]
      unfold mlookup
      rw [List.find?_cons_of_neg _ (by simp [ha])]
      exact ih hrest
    · rw [if_neg hc]
      exact ih hrest

/-- Lookup characterization for a by-metric `filterMap` over a
duplicate-free metric table: the metric's entry is the median of its values
list, present iff that list is nonempty. -/
lemma mlookup_vf_filterMap (vf : List RE → String → List ℚ)
    (l : List (String × List RE)) (t mt : String) (pats : List RE)
    (hnd : (l.map (·.1)).Nodup) (hmem : (mt, pats) ∈ l) :
    mlookup (l.filterMap fun mp =>
      if vf mp.2 t ≠ [] then some (mp.1, npMedian (vf mp.2 t)) else none) mt =
      if vf pats t = [] then none else some (npMedian (vf pats t)) := by
  induction l with
  | nil => simp at hmem
  | cons a rest ih =>
    rw [List.map_cons, List.nodup_cons] at hnd
    obtain ⟨hna, hnrest⟩ := hnd
    rw [List.filterMap_cons]
    rcases List.mem_cons.mp hmem with heq | hmem'
    · have ha1 : a.1 = mt := by rw [← heq]
      have ha2 : a.2 = pats := by rw [← heq]
      by_cases hc : vf pats t = []
      · rw [if_pos hc]
        rw [show (if vf a.2 t ≠ [] then some (a.1, npMedian (vf a.2 t)) else none) = none by
          rw [ha2]; simp [hc]]
        exact mlookup_vf_none vf rest t mt fun mp hm => by
          intro hx
          exact hna (by rw [ha1, ← hx]; exact List.mem_map_of_mem (·.1) hm)
      · rw [if_neg hc]
        rw [show (if vf a.2 t ≠ [] then some (a.1, npMedian (vf a.2 t)) else none) =
            some (mt, npMedian (vf pats t)) by rw [ha2, ha1]; simp [hc]]
        unfold mlookup
        rw [List.find?_cons_of_pos _ (by simp)]
        rfl
    · have hmt : a.1 ≠ mt := by
        intro hx
        exact hna (hx ▸ List.mem_map_of_mem (·.1) hmem')
      by_cases hc : vf a.2 t ≠ []
      · rw [if_pos hc]
        unfold mlookup
        rw [List.find?_cons_of_neg _ (by simp [hmt])]
        exact ih hnrest hmem'
      · rw [if_neg hc]
        exact ih hnrest hmem'

/-- Lookup characterization for the code's `extract_financial_metrics`. -/
lemma mlookup_extract (mt : String) (pats : List RE) (t : String)
    (hmem : (mt, pats) ∈ financial_patterns) :
    mlookup (extract_financial_metrics t) mt =
      if metricValues pats t = [] then none
      else some (npMedian (metricValues pats t)) :=
  mlookup_vf_filterMap metricValues financial_patterns t mt pats (by decide) hmem

/-- Lookup characterization for the claim's `extract_metrics_spec`. -/
lemma mlookup_extract_spec (mt : String) (pats : List RE) (t : String)
    (hmem : (mt, pats) ∈ financial_patterns) :
    mlookup (extract_metrics_spec t) mt =
      if allParsedValues pats t = [] then none
      else some (npMedian (allParsedValues pats t)) :=
  mlookup_vf_filterMap allParsedValues financial_patterns t mt pats (by decide) hmem

/-! #### Evaluating the numeric parser on the claim inputs -/

lemma splitDigits_all (cs : List Char) (h : ∀ c ∈ cs, c.isDigit) :
    splitDigits cs = (cs, []) := by
  induction cs with
  | nil => rfl
  | cons c t ih =>
    have hc : c.isDigit := h c (List.mem_cons_self c t)
    have ht := ih fun x hx => h x (List.mem_cons_of_mem c hx)
    simp [splitDigits, hc, ht]

lemma splitDigits_append_stop (ds rest : List Char) (hd : ∀ c ∈ ds, c.isDigit)
    (hr : ∀ c, rest.head? = some c → ¬ c.isDigit) :
    splitDigits (ds ++ rest) = (ds, rest) := by
  induction ds with
  | nil =>
    cases rest with
    | nil => rfl
    | cons r t =>
      have : ¬ r.isDigit := hr r rfl
      simp [splitDigits, this]
  | cons c t ih =>
    have hc : c.isDigit := hd c (List.mem_cons_self c t)
    have ht := ih fun x hx => hd x (List.mem_cons_of_mem c hx)
    simp [splitDigits, hc, ht]

lemma not_sign_of_digit (c : Char) (h : c.isDigit) : ¬ (c = '+' ∨ c = '-') := by
  rintro (rfl | rfl) <;> simp [Char.isDigit] at h

lemma pyFloatBody_eq (sgn : ℚ) (cs1 ip r1 : List Char) (h : splitDigits cs1 = (ip, r1)) :
    pyFloatBody sgn cs1 =
      if r1.head? = some '.' then
        pyFloatFrac sgn ip (splitDigits r1.tail).1 (splitDigits r1.tail).2
      else pyFloatFrac sgn ip [] r1 := by
  unfold pyFloatBody
  rw [h]

lemma pyFloat?_all_digits (cs : List Char) (hne : cs ≠ [])
    (hd : ∀ c ∈ cs, c.isDigit) :
    pyFloat? cs.asString = some ((digitsVal cs : ℚ)) := by
  obtain ⟨c, t, rfl⟩ : ∃ c t, cs = c :: t := by
    cases cs with
    | nil => exact absurd rfl hne
    | cons c t => exact ⟨c, t, rfl⟩
  have hc : c.isDigit := hd c (List.mem_cons_self c t)
  have hcs : (c :: t).asString.toList = c :: t := rfl
  unfold pyFloat?
  rw [hcs]
  have hsgn : ¬ ((c :: t).head? = some '-') := by
    simp only [List.head?_cons, Option.some.injEq]
    intro hx
    exact not_sign_of_digit c hc (Or.inr hx)
  rw [if_neg hsgn]
  have hstrip : stripSign (c :: t) = c :: t := by
    simp [stripSign, not_sign_of_digit c hc]
  rw [hstrip, pyFloatBody_eq _ _ _ _ (splitDigits_all (c :: t) hd), if_neg (by simp)]
  unfold pyFloatFrac
  rw [if_neg (by simp)]
  unfold pyFloatExp
  simp [digitsVal]

lemma pyFloat?_digits_dot (ipc fpc : List Char) (hne : ipc ≠ [])
    (hip : ∀ c ∈ ipc, c.isDigit) (hfp : ∀ c ∈ fpc, c.isDigit) :
    pyFloat? (ipc ++ '.' :: fpc).asString =
      some ((digitsVal ipc : ℚ) + (digitsVal fpc : ℚ) / (10 : ℚ) ^ fpc.length) := by
  obtain ⟨c, t, rfl⟩ : ∃ c t, ipc = c :: t := by
    cases ipc with
    | nil => exact absurd rfl hne
    | cons c t => exact ⟨c, t, rfl⟩
  have hc : c.isDigit := hip c (List.mem_cons_self c t)
  have hcs : ((c :: t) ++ '.' :: fpc).asString.toList = (c :: t) ++ '.' :: fpc := rfl
  unfold pyFloat?
  rw [hcs]
  have hsgn : ¬ (((c :: t) ++ '.' :: fpc).head? = some '-') := by
    simp only [List.cons_append, List.head?_cons, Option.some.injEq]
    intro hx
    exact not_sign_of_digit c hc (Or.inr hx)
  rw [if_neg hsgn]
  have hstrip : stripSign ((c :: t) ++ '.' :: fpc) = (c :: t) ++ '.' :: fpc := by
    simp [stripSign, not_sign_of_digit c hc]
  rw [hstrip, pyFloatBody_eq _ _ _ _ (splitDigits_append_stop (c :: t) ('.' :: fpc) hip
      (by intro x hx
          simp only [List.head?_cons, Option.some.injEq] at hx
          rw [← hx]
          decide)),
    if_pos (by simp), show ('.' :: fpc).tail = fpc from rfl,
    splitDigits_all fpc hfp]
  unfold pyFloatFrac
  rw [if_neg (by simp)]
  unfold pyFloatExp
  simp [mul_comm]

lemma not_kmb_of_digit (c : Char) (h : c.isDigit) :
    ¬ (c = 'K' ∨ c = 'k') ∧ ¬ (c = 'M' ∨ c = 'm') ∧ ¬ (c = 'B' ∨ c = 'b') := by
  refine ⟨?_, ?_, ?_⟩ <;> rintro (rfl | rfl) <;> exact absurd h (by decide)

lemma endsWithUpper_concat (ds : List Char) (d c lc : Char) :
    endsWithUpper (ds ++ [d]) c lc = (d = c || d = lc) := by
  unfold endsWithUpper
  rw [List.getLast?_append_cons]
  rfl

lemma parse_suffixed_concat_ne (ds : List Char) (d c lc : Char) (mul : ℚ)
    (h1 : ¬ d = c) (h2 : ¬ d = lc) :
    parse_suffixed (ds ++ [d]) c lc mul = none := by
  unfold parse_suffixed
  rw [endsWithUpper_concat, if_neg (by simp [h1, h2])]

lemma dropLast_concat_eq (ds : List Char) (d : Char) : (ds ++ [d]).dropLast = ds := by
  simp

lemma parse_value_digits_M (s : String) (ds : List Char) (hs0 : ¬ s = "")
    (hclean : pyCleanValue s = ds ++ ['M']) (hne : ds ≠ [])
    (hd : ∀ c ∈ ds, c.isDigit) :
    parse_financial_value s = some ((digitsVal ds : ℚ) * 1000000) := by
  unfold parse_financial_value
  rw [if_neg hs0, hclean]
  rw [parse_suffixed_concat_ne ds 'M' 'K' 'k' 1000 (by decide) (by decide)]
  have hM : parse_suffixed (ds ++ ['M']) 'M' 'm' 1000000 =
      some ((digitsVal ds : ℚ) * 1000000) := by
    unfold parse_suffixed
    rw [endsWithUpper_concat, if_pos (by decide), dropLast_concat_eq,
      pyFloat?_all_digits ds hne hd]
    rfl
  rw [hM]
  rfl

lemma parse_value_digits_dot_M (s : String) (ipc fpc : List Char) (hs0 : ¬ s = "")
    (hclean : pyCleanValue s = (ipc ++ '.' :: fpc) ++ ['M']) (hne : ipc ≠ [])
    (hip : ∀ c ∈ ipc, c.isDigit) (hfp : ∀ c ∈ fpc, c.isDigit) :
    parse_financial_value s =
      some (((digitsVal ipc : ℚ) + (digitsVal fpc : ℚ) / (10 : ℚ) ^ fpc.length)
        * 1000000) := by
  unfold parse_financial_value
  rw [if_neg hs0, hclean]
  rw [parse_suffixed_concat_ne _ 'M' 'K' 'k' 1000 (by decide) (by decide)]
  have hM : parse_suffixed ((ipc ++ '.' :: fpc) ++ ['M']) 'M' 'm' 1000000 =
      some (((digitsVal ipc : ℚ) + (digitsVal fpc : ℚ) / (10 : ℚ) ^ fpc.length)
        * 1000000) := by
    unfold parse_suffixed
    rw [endsWithUpper_concat, if_pos (by decide), dropLast_concat_eq,
      pyFloat?_digits_dot ipc fpc hne hip hfp]
    rfl
  rw [hM]
  rfl

lemma parse_value_plain_digits (s : String) (ds : List Char) (hs0 : ¬ s = "")
    (hclean : pyCleanValue s = ds) (hne : ds ≠ [])
    (hd : ∀ c ∈ ds, c.isDigit) :
    parse_financial_value s = some ((digitsVal ds : ℚ)) := by
  have hdig := hd _ (List.getLast_mem hne)
  obtain ⟨hK, hM, hB⟩ := not_kmb_of_digit _ hdig
  have hEW : ∀ c lc : Char, ¬ (ds.getLast hne = c ∨ ds.getLast hne = lc) →
      endsWithUpper ds c lc = false := by
    intro c lc h
    unfold endsWithUpper
    rw [List.getLast?_eq_getLast ds hne]
    simp only [Bool.or_eq_false_iff, decide_eq_false_iff_not]
    exact ⟨fun hx => h (Or.inl hx), fun hx => h (Or.inr hx)⟩
  unfold parse_financial_value
  rw [if_neg hs0, hclean]
  have hsuf : ∀ c lc : Char, ¬ (ds.getLast hne = c ∨ ds.getLast hne = lc) →
      ∀ mul, parse_suffixed ds c lc mul = none := by
    intro c lc h mul
    unfold parse_suffixed
    rw [hEW c lc h, if_neg (by simp)]
  rw [hsuf 'K' 'k' hK 1000, hsuf 'M' 'm' hM 1000000, hsuf 'B' 'b' hB 1000000000,
    pyFloat?_all_digits ds hne hd]
  rfl

/-- Model of `parse_financial_value "$1M" = 1e6` and friends. -/
lemma parse_dollar_1M : parse_financial_value "$1M" = some 1000000 := by
  have h := parse_value_digits_M "$1M" ['1'] (by decide) (by decide) (by decide)
    (by decide)
  rw [show digitsVal ['1'] = 1 from by decide] at h
  rw [h]
  norm_num

lemma parse_dollar_2M : parse_financial_value "$2M" = some 2000000 := by
  have h := parse_value_digits_M "$2M" ['2'] (by decide) (by decide) (by decide)
    (by decide)
  rw [show digitsVal ['2'] = 2 from by decide] at h
  rw [h]
  norm_num

lemma parse_dollar_3M : parse_financial_value "$3M" = some 3000000 := by
  have h := parse_value_digits_M "$3M" ['3'] (by decide) (by decide) (by decide)
    (by decide)
  rw [show digitsVal ['3'] = 3 from by decide] at h
  rw [h]
  norm_num

lemma parse_dollar_0 : parse_financial_value "$0" = some 0 := by
  have h := parse_value_plain_digits "$0" ['0'] (by decide) (by decide) (by decide)
    (by decide)
  rw [show digitsVal ['0'] = 0 from by decide] at h
  rw [h]
  norm_num

lemma parse_dollar_25M : parse_financial_value "$2.5M" = some 2500000 := by
  have h := parse_value_digits_dot_M "$2.5M" ['2'] ['5'] (by decide) (by decide)
    (by decide) (by decide) (by decide)
  rw [show digitsVal ['2'] = 2 from by decide, show digitsVal ['5'] = 5 from by decide] at h
  rw [h]
  norm_num

lemma parse_comma_1200 : parse_financial_value "1,200" = some 1200 := by
  have h := parse_value_plain_digits "1,200" ['1', '2', '0', '0'] (by decide)
    (by decide) (by decide) (by decide)
  rw [show digitsVal ['1', '2', '0', '0'] = 1200 from by decide] at h
  rw [h]
  norm_num

lemma parse_abc : parse_financial_value "abc" = none := by decide

lemma parse_empty : parse_financial_value "" = none := rfl

/-! #### Evaluating the extractor on the claim texts -/

lemma metricValues_c6Example :
    metricValues revenuePatterns c6ExampleText =
      [1000000, 3000000, 2000000, 1000000, 3000000] := by
  have h0 : findall revP0 c6ExampleText = ["$1M", "$3M", "$2M"] := by decide
  have h1 : findall revP1 c6ExampleText = [] := by decide
  have h2 : findall revP2 c6ExampleText = [] := by decide
  have h3 : findall revP3 c6ExampleText = ["$1M", "$3M"] := by decide
  have h4 : findall revP4 c6ExampleText = [] := by decide
  unfold metricValues revenuePatterns
  simp only [List.flatMap_cons, List.flatMap_nil, h0, h1, h2, h3, h4,
    List.filterMap_cons, List.filterMap_nil, parse_dollar_1M, parse_dollar_2M,
    parse_dollar_3M]
  norm_num

lemma metricValues_c6Zero :
    metricValues revenuePatterns c6ZeroText = [2000000] := by
  have h0 : findall revP0 c6ZeroText = ["$0", "$2M"] := by decide
  have h1 : findall revP1 c6ZeroText = [] := by decide
  have h2 : findall revP2 c6ZeroText = [] := by decide
  have h3 : findall revP3 c6ZeroText = ["$0"] := by decide
  have h4 : findall revP4 c6ZeroText = [] := by decide
  unfold metricValues revenuePatterns
  simp only [List.flatMap_cons, List.flatMap_nil, h0, h1, h2, h3, h4,
    List.filterMap_cons, List.filterMap_nil, parse_dollar_0, parse_dollar_2M]
  norm_num

lemma allParsedValues_c6Zero :
    allParsedValues revenuePatterns c6ZeroText = [0, 2000000, 0] := by
  have h0 : findall revP0 c6ZeroText = ["$0", "$2M"] := by decide
  have h1 : findall revP1 c6ZeroText = [] := by decide
  have h2 : findall revP2 c6ZeroText = [] := by decide
  have h3 : findall revP3 c6ZeroText = ["$0"] := by decide
  have h4 : findall revP4 c6ZeroText = [] := by decide
  unfold allParsedValues revenuePatterns
  simp only [List.flatMap_cons, List.flatMap_nil, h0, h1, h2, h3, h4,
    List.filterMap_cons, List.filterMap_nil, parse_dollar_0, parse_dollar_2M]
  norm_num

lemma metricValues_c9Zero :
    metricValues revenuePatterns c9ZeroText = [] := by
  have h0 : findall revP0 c9ZeroText = ["$0"] := by decide
  have h1 : findall revP1 c9ZeroText = [] := by decide
  have h2 : findall revP2 c9ZeroText = [] := by decide
  have h3 : findall revP3 c9ZeroText = [] := by decide
  have h4 : findall revP4 c9ZeroText = [] := by decide
  unfold metricValues revenuePatterns
  simp only [List.flatMap_cons, List.flatMap_nil, h0, h1, h2, h3, h4,
    List.filterMap_cons, List.filterMap_nil, parse_dollar_0]
  norm_num

lemma metricValues_c6PermA :
    metricValues revenuePatterns c6PermTextA =
      [1000000, 2000000, 1000000, 1000000, 2000000] := by
  have h0 : findall revP0 c6PermTextA = ["$1M", "$2M", "$1M"] := by decide
  have h1 : findall revP1 c6PermTextA = [] := by decide
  have h2 : findall revP2 c6PermTextA = [] := by decide
  have h3 : findall revP3 c6PermTextA = ["$1M", "$2M"] := by decide
  have h4 : findall revP4 c6PermTextA = [] := by decide
  unfold metricValues revenuePatterns
  simp only [List.flatMap_cons, List.flatMap_nil, h0, h1, h2, h3, h4,
    List.filterMap_cons, List.filterMap_nil, parse_dollar_1M, parse_dollar_2M]
  norm_num

lemma metricValues_c6PermB :
    metricValues revenuePatterns c6PermTextB =
      [2000000, 1000000, 1000000, 2000000, 1000000] := by
  have h0 : findall revP0 c6PermTextB = ["$2M", "$1M", "$1M"] := by decide
  have h1 : findall revP1 c6PermTextB = [] := by decide
  have h2 : findall revP2 c6PermTextB = [] := by decide
  have h3 : findall revP3 c6PermTextB = ["$2M", "$1M"] := by decide
  have h4 : findall revP4 c6PermTextB = [] := by decide
  unfold metricValues revenuePatterns
  simp only [List.flatMap_cons, List.flatMap_nil, h0, h1, h2, h3, h4,
    List.filterMap_cons, List.filterMap_nil, parse_dollar_1M, parse_dollar_2M]
  norm_num

lemma revenue_mem_financial_patterns :
    ("revenue", revenuePatterns) ∈ financial_patterns := by
  unfold financial_patterns
  exact List.mem_cons_self _ _


/-! ### Claim theorems -/

/-! Projection lemmas for `analyze_startup`. -/

lemma analyze_pdf_data (env : PipelineEnv) (inp : AnalysisInput) :
    (analyze_startup env inp).pdf_data =
      if pdfStepRuns inp then
        some (extract_features_from_pdf env ((inp.pdf_path).getD "")).1
      else none := rfl

lemma analyze_components (env : PipelineEnv) (inp : AnalysisInput) :
    (analyze_startup env inp).components_used =
      ((if pdfStepRuns inp then ["PDF_EXTRACTION"] else []) ++
        (if inp.use_ai_agents && env.agents_available then ["AI_AGENTS"] else [])) ++
      (if inp.use_ml_prediction then ["ML_PREDICTION"] else []) := rfl

lemma analyze_overall_confidence (env : PipelineEnv) (inp : AnalysisInput) :
    (analyze_startup env inp).overall_confidence =
      (combine_analysis_results (analyze_startup env inp).ml_prediction
        (analyze_startup env inp).pdf_data
        (analyze_startup env inp).agent_analysis).1 := rfl

lemma analyze_ml_features (env : PipelineEnv) (inp : AnalysisInput) :
    (analyze_startup env inp).ml_features = workingFeatures env inp := rfl

lemma pdfStepRuns_true (inp : AnalysisInput) (pth : String)
    (hflag : inp.use_pdf_extraction = true) (hpath : inp.pdf_path = some pth)
    (hne : pth ≠ "") : pdfStepRuns inp = true := by
  unfold pdfStepRuns
  rw [hflag, hpath]
  simp [hne]

lemma dget_workingFeatures_pdf (env : PipelineEnv) (inp : AnalysisInput) (k : String)
    (hrun : pdfStepRuns inp = true)
    (hk : (dget (extract_features_from_pdf env ((inp.pdf_path).getD "")).2 k).isSome) :
    dget (workingFeatures env inp) k =
      dget (extract_features_from_pdf env ((inp.pdf_path).getD "")).2 k := by
  unfold workingFeatures
  rw [if_pos hrun]
  exact dget_dictUpdate_of_isSome _ _ k (extract_keysNodup env _) hk

lemma dget_workingFeatures_base (env : PipelineEnv) (inp : AnalysisInput)
    (k : String) (hpdfk : k ∉ convertKeys) :
    dget (workingFeatures env inp) k =
      dget (dictUpdate (initialFeatures inp) (identityFields inp)) k := by
  unfold workingFeatures
  by_cases hrun : pdfStepRuns inp = true
  · rw [if_pos hrun,
      dget_dictUpdate_of_none _ _ _ (extract_dget_none_of_not_key env _ k hpdfk)]
  · rw [if_neg hrun]

lemma dget_workingFeatures_identity (env : PipelineEnv) (inp : AnalysisInput)
    (k : String) (v : PyVal) (hk : dget (identityFields inp) k = some v)
    (hpdfk : k ∉ convertKeys) :
    dget (workingFeatures env inp) k = some v := by
  rw [dget_workingFeatures_base env inp k hpdfk,
    dget_dictUpdate_of_isSome _ _ _
      (by rw [show dictKeys (identityFields inp) =
            ["company_name", "industry", "description"] from rfl]
          decide)
      (by rw [hk]; rfl), hk]

/-- C2 counterexample: with `manual_data = {revenue: 100}` and a PDF whose
extracted revenue is 2000000, the feature dict handed to the ML step carries
the PDF value, not the manual one. -/
theorem C2_counterexample :
    dget (analyze_startup c2Env c2Inp).ml_features "revenue" =
      some (.num 2000000) ∧
    dget ((c2Inp.manual_data).getD []) "revenue" = some (.num 100) := by
  constructor
  · rfl
  · rfl

/-- C2 amended: `analyze_startup` merges the PDF-derived features into the
working dict with `dict.update` AFTER the manual data, so for every key the
PDF step produces, the PDF value — not the manual one — is what reaches the
ML prediction step.  Manual values survive only for keys the PDF step does
not produce. -/
theorem C2_pdf_overrides_manual (env : PipelineEnv) (inp : AnalysisInput)
    (pth k : String) (hflag : inp.use_pdf_extraction = true)
    (hpath : inp.pdf_path = some pth) (hne : pth ≠ "")
    (hk : (dget (extract_features_from_pdf env pth).2 k).isSome) :
    dget (analyze_startup env inp).ml_features k =
      dget (extract_features_from_pdf env pth).2 k := by
  have hrun := pdfStepRuns_true inp pth hflag hpath hne
  have hgd : (inp.pdf_path).getD "" = pth := by rw [hpath]; rfl
  rw [analyze_ml_features]
  have h := dget_workingFeatures_pdf env inp k hrun (by rw [hgd]; exact hk)
  rw [hgd] at h
  exact h

/-- Witness for C2 at the concrete counterexample environment. -/
theorem C2_pdf_overrides_manual_witness :
    c2Inp.use_pdf_extraction = true ∧ c2Inp.pdf_path = some "deck.pdf" ∧
    ("deck.pdf" : String) ≠ "" ∧
    (dget (extract_features_from_pdf c2Env "deck.pdf").2 "revenue").isSome ∧
    dget (analyze_startup c2Env c2Inp).ml_features "revenue" =
      dget (extract_features_from_pdf c2Env "deck.pdf").2 "revenue" :=
  ⟨rfl, rfl, by decide, by decide,
   C2_pdf_overrides_manual c2Env c2Inp "deck.pdf" "revenue" rfl rfl (by decide)
     (by decide)⟩

/-- C3 counterexample: on the spec's resilience scenario (unreadable PDF,
extractor returns its empty default), the result is complete and `pdf_data`
is the default structure — but `"PDF_EXTRACTION"` IS recorded in
`components_used`, and `overall_confidence` is the mean of the ML confidence
(0.8) with the zero extraction confidence, i.e. 0.4, not the ML value
alone. -/
theorem C3_counterexample :
    (analyze_startup c3Env c3Inp).pdf_data = some ({} : ExtractedFinancialData) ∧
    "PDF_EXTRACTION" ∈ (analyze_startup c3Env c3Inp).components_used ∧
    (analyze_startup c3Env c3Inp).ml_prediction.model_confidence = 4/5 ∧
    (analyze_startup c3Env c3Inp).overall_confidence = 2/5 ∧
    (2/5 : ℚ) ≠ 4/5 := by
  refine ⟨rfl, ?_, rfl, ?_, by norm_num⟩
  · rw [analyze_components, if_pos (show pdfStepRuns c3Inp = true by decide)]
    simp
  · rw [analyze_overall_confidence,
      show (analyze_startup c3Env c3Inp).pdf_data =
        some ({} : ExtractedFinancialData) from rfl]
    unfold combine_analysis_results
    rw [show (analyze_startup c3Env c3Inp).ml_prediction.model_confidence =
      4/5 from rfl]
    norm_num

/-- C3 amended: when `use_pdf_extraction` is set and the PDF cannot be read
(the extractor returns its empty default structure, or raises), the pipeline
still returns a complete result with `pdf_data` the default structure — but
`"PDF_EXTRACTION"` is recorded in `components_used` (the failure path inside
`extract_features_from_pdf` swallows the exception before the `append`), and
`overall_confidence` is the mean of the ML model confidence and the
zero-valued extraction confidence, not the ML confidence alone. -/
theorem C3_pdf_failure_still_recorded (env : PipelineEnv) (inp : AnalysisInput)
    (pth : String) (hflag : inp.use_pdf_extraction = true)
    (hpath : inp.pdf_path = some pth) (hne : pth ≠ "")
    (hext : env.raw_extract pth = some {} ∨ env.raw_extract pth = none) :
    (analyze_startup env inp).pdf_data = some ({} : ExtractedFinancialData) ∧
    "PDF_EXTRACTION" ∈ (analyze_startup env inp).components_used ∧
    (analyze_startup env inp).overall_confidence =
      ((analyze_startup env inp).ml_prediction.model_confidence + 0) / 2 := by
  have hrun := pdfStepRuns_true inp pth hflag hpath hne
  have hgd : (inp.pdf_path).getD "" = pth := by rw [hpath]; rfl
  have hpdf : (analyze_startup env inp).pdf_data =
      some ({} : ExtractedFinancialData) := by
    rw [analyze_pdf_data, if_pos hrun, hgd]
    unfold extract_features_from_pdf
    rcases hext with h | h <;> rw [h]
  refine ⟨hpdf, ?_, ?_⟩
  · rw [analyze_components, if_pos hrun]
    exact List.mem_append_left _ (List.mem_append_left _ (List.mem_cons_self _ _))
  · rw [analyze_overall_confidence, hpdf]
    unfold combine_analysis_results
    norm_num

/-- Witness for C3 at the concrete scenario. -/
theorem C3_pdf_failure_still_recorded_witness :
    c3Inp.use_pdf_extraction = true ∧ c3Inp.pdf_path = some "/does/not/exist" ∧
    ("/does/not/exist" : String) ≠ "" ∧
    c3Env.raw_extract "/does/not/exist" = some {} ∧
    ((analyze_startup c3Env c3Inp).pdf_data =
        some ({} : ExtractedFinancialData) ∧
      "PDF_EXTRACTION" ∈ (analyze_startup c3Env c3Inp).components_used ∧
      (analyze_startup c3Env c3Inp).overall_confidence =
        ((analyze_startup c3Env c3Inp).ml_prediction.model_confidence + 0) / 2) :=
  ⟨rfl, rfl, by decide, rfl,
   C3_pdf_failure_still_recorded c3Env c3Inp "/does/not/exist" rfl rfl (by decide)
     (Or.inl rfl)⟩

/-- C4: `analyze_startup` performs no validation of `company_name`: with an
empty name it does not refuse, but returns a complete analysis built from
internal defaults (full component list, default prediction, confidence
0.3). -/
theorem C4_empty_company_name_not_refused :
    (analyze_startup c4Env c4Inp).company_name = "" ∧
    (analyze_startup c4Env c4Inp).components_used = ["ML_PREDICTION"] ∧
    (analyze_startup c4Env c4Inp).ml_prediction = {} ∧
    (analyze_startup c4Env c4Inp).overall_confidence = 3/10 := by
  refine ⟨rfl, rfl, rfl, ?_⟩
  rw [analyze_overall_confidence,
    show (analyze_startup c4Env c4Inp).pdf_data = none from rfl,
    show (analyze_startup c4Env c4Inp).ml_prediction = {} from rfl]
  unfold combine_analysis_results
  norm_num

/-- C10 counterexample: a non-None but EMPTY `manual_data` dict is not
aliased (`manual_data or {}` replaces a falsy dict with a fresh one), so
after the call the caller's dict is still empty — it does not contain
`company_name`. -/
theorem C10_empty_manual_dict_not_mutated :
    (analyze_startup c4Env c10Inp).manual_data_after = some [] ∧
    dget (((analyze_startup c4Env c10Inp).manual_data_after).getD [])
      "company_name" = none := by
  exact ⟨rfl, rfl⟩

/-- C10 amended: for every call whose `manual_data` is a non-empty dict,
`analyze_startup` mutates that caller-owned dict in place: afterwards it is
exactly the final working feature dict, which contains `company_name`,
`industry` and `description`, and every PDF-derived key when the PDF step
ran.  An empty (but non-None) dict is replaced by a fresh `{}` and left
untouched. -/
theorem C10_nonempty_manual_dict_mutated (env : PipelineEnv)
    (inp : AnalysisInput) (d : Dict) (hmd : inp.manual_data = some d)
    (hne : d ≠ []) :
    (analyze_startup env inp).manual_data_after =
      some (analyze_startup env inp).ml_features ∧
    dget (analyze_startup env inp).ml_features "company_name" =
      some (.str inp.company_name) ∧
    dget (analyze_startup env inp).ml_features "industry" =
      some (.str (pyOrStr inp.industry "Technology")) ∧
    dget (analyze_startup env inp).ml_features "description" =
      some (.str ((inp.description).getD "")) ∧
    (pdfStepRuns inp = true →
      ∀ k, (dget (extract_features_from_pdf env ((inp.pdf_path).getD "")).2 k).isSome →
        (dget (analyze_startup env inp).ml_features k).isSome) := by
  have halias : manualAliased inp = true := by
    unfold manualAliased
    rw [hmd]
    simp [hne]
  refine ⟨?_, ?_, ?_, ?_, ?_⟩
  · show (match inp.manual_data with
      | some d => if manualAliased inp then some (workingFeatures env inp) else some d
      | none => none) = some (workingFeatures env inp)
    rw [hmd]
    simp [halias]
  · rw [analyze_ml_features]
    exact dget_workingFeatures_identity env inp _ _ rfl (by decide)
  · rw [analyze_ml_features]
    exact dget_workingFeatures_identity env inp _ _ rfl (by decide)
  · rw [analyze_ml_features]
    exact dget_workingFeatures_identity env inp _ _ rfl (by decide)
  · intro hrun k hk
    rw [analyze_ml_features, dget_workingFeatures_pdf env inp k hrun hk]
    exact hk

/-- Witness for C10 with the one-entry manual dict of the C2 scenario. -/
theorem C10_nonempty_manual_dict_mutated_witness :
    c2Inp.manual_data = some [("revenue", PyVal.num 100)] ∧
    ([("revenue", PyVal.num 100)] : Dict) ≠ [] ∧
    (analyze_startup c2Env c2Inp).manual_data_after =
      some (analyze_startup c2Env c2Inp).ml_features ∧
    dget (analyze_startup c2Env c2Inp).ml_features "company_name" =
      some (.str c2Inp.company_name) :=
  ⟨rfl, by decide,
   (C10_nonempty_manual_dict_mutated c2Env c2Inp _ rfl (by decide)).1,
   (C10_nonempty_manual_dict_mutated c2Env c2Inp _ rfl (by decide)).2.1⟩

/-- C1: the claim says all six sub-scores of `predict_startup_success` lie in
[0,100], risk included.  `_calculate_risk_score`'s own docstring says
"(0-100, lower is better)", but the code multiplies the already-0-to-100
weighted sum by a further 100: at the dataclass defaults (all five risk
inputs 0.5) it returns 5000, contradicting both the docstring and the claim. -/
theorem C1_risk_score_out_of_range :
    _calculate_risk_score {} = 5000 ∧ ¬ (_calculate_risk_score {} ≤ 100) := by
  have h : _calculate_risk_score {} = 5000 := by
    unfold _calculate_risk_score
    norm_num
  exact ⟨h, by rw [h]; norm_num⟩

/-- C5: for every ensemble probability in [0,1] and nonnegative base-model
standard deviation, the assembled prediction satisfies
`0 ≤ lower ≤ probability ≤ upper ≤ 1`, and the category/recommendation follow
the 0.70/0.40 thresholds exactly. -/
theorem C5_prediction_bounds_and_thresholds (p σ : ℚ)
    (hp0 : 0 ≤ p) (hp1 : p ≤ 1) (hσ : 0 ≤ σ) :
    (assemble_prediction p σ).success_probability = p ∧
    0 ≤ (assemble_prediction p σ).confidence_interval.1 ∧
    (assemble_prediction p σ).confidence_interval.1 ≤ p ∧
    p ≤ (assemble_prediction p σ).confidence_interval.2 ∧
    (assemble_prediction p σ).confidence_interval.2 ≤ 1 ∧
    (7/10 ≤ p →
      (assemble_prediction p σ).success_category = "High Potential" ∧
      (assemble_prediction p σ).investment_recommendation = "INVEST") ∧
    (4/10 ≤ p → p < 7/10 →
      (assemble_prediction p σ).success_category = "Medium Potential" ∧
      (assemble_prediction p σ).investment_recommendation = "WATCH") ∧
    (p < 4/10 →
      (assemble_prediction p σ).success_category = "Low Potential" ∧
      (assemble_prediction p σ).investment_recommendation = "PASS") := by
  have hσ' : 0 ≤ 196/100 * σ := by positivity
  have hlow0 : 0 ≤ max 0 (p - 196/100 * σ) := le_max_left 0 _
  have hlowp : max 0 (p - 196/100 * σ) ≤ p := max_le hp0 (by linarith)
  have hupp : p ≤ min 1 (p + 196/100 * σ) := le_min hp1 (by linarith)
  have hup1 : min 1 (p + 196/100 * σ) ≤ 1 := min_le_left 1 _
  unfold assemble_prediction
  by_cases h7 : p ≥ 7/10
  · rw [if_pos h7]
    exact ⟨rfl, hlow0, hlowp, hupp, hup1,
      fun _ => ⟨rfl, rfl⟩,
      fun _ hlt => absurd h7 (not_le.mpr hlt),
      fun hlt => absurd h7 (not_le.mpr (by linarith))⟩
  · rw [if_neg h7]
    by_cases h4 : p ≥ 4/10
    · rw [if_pos h4]
      exact ⟨rfl, hlow0, hlowp, hupp, hup1,
        fun hc => absurd hc h7,
        fun _ _ => ⟨rfl, rfl⟩,
        fun hlt => absurd h4 (not_le.mpr hlt)⟩
    · rw [if_neg h4]
      exact ⟨rfl, hlow0, hlowp, hupp, hup1,
        fun hc => absurd hc h7,
        fun hc _ => absurd hc h4,
        fun _ => ⟨rfl, rfl⟩⟩

/-- Witness for C5 at probability 0.85 and σ 0.1. -/
theorem C5_prediction_bounds_and_thresholds_witness :
    (0 : ℚ) ≤ 17/20 ∧ (17/20 : ℚ) ≤ 1 ∧ (0 : ℚ) ≤ 1/10 ∧
    ((assemble_prediction (17/20) (1/10)).success_probability = 17/20 ∧
     0 ≤ (assemble_prediction (17/20) (1/10)).confidence_interval.1 ∧
     (assemble_prediction (17/20) (1/10)).confidence_interval.1 ≤ 17/20 ∧
     (17/20 : ℚ) ≤ (assemble_prediction (17/20) (1/10)).confidence_interval.2 ∧
     (assemble_prediction (17/20) (1/10)).confidence_interval.2 ≤ 1 ∧
     ((7/10 : ℚ) ≤ 17/20 →
       (assemble_prediction (17/20) (1/10)).success_category = "High Potential" ∧
       (assemble_prediction (17/20) (1/10)).investment_recommendation = "INVEST") ∧
     ((4/10 : ℚ) ≤ 17/20 → (17/20 : ℚ) < 7/10 →
       (assemble_prediction (17/20) (1/10)).success_category = "Medium Potential" ∧
       (assemble_prediction (17/20) (1/10)).investment_recommendation = "WATCH") ∧
     ((17/20 : ℚ) < 4/10 →
       (assemble_prediction (17/20) (1/10)).success_category = "Low Potential" ∧
       (assemble_prediction (17/20) (1/10)).investment_recommendation = "PASS")) :=
  ⟨by norm_num, by norm_num, by norm_num,
   C5_prediction_bounds_and_thresholds (17/20) (1/10) (by norm_num) (by norm_num)
     (by norm_num)⟩

/-- C7: `parse_financial_value` computes, on every input string, exactly the
function the spec describes (strip `$`/commas/whitespace, case-insensitive
K/M/B suffix multiplication by 1e3/1e6/1e9, else plain float, `None` on
failure), and the four documented examples hold. -/
theorem C7_parse_value_spec :
    (∀ s : String, parse_financial_value s = parse_value_spec s) ∧
    parse_financial_value "$2.5M" = some 2500000 ∧
    parse_financial_value "1,200" = some 1200 ∧
    parse_financial_value "" = none ∧
    parse_financial_value "abc" = none :=
  ⟨parse_financial_value_eq_spec, parse_dollar_25M, parse_comma_1200, parse_empty,
   parse_abc⟩

/-- C8: with the generator re-seeded (`np.random.seed(42)`) at the top of
`create_enhanced_training_data` and the sklearn fitting step a deterministic
function of the dataset, two train-then-predict runs give the same
probability from any prior generator states; and predicting after
`load_model` of a `save_model` artifact reproduces the trained state's
probability exactly. -/
theorem C8_train_and_persistence_determinism {M S : Type}
    (fit : List TrainingSample → ModelArtifact M S)
    (applyScaler : S → List ℚ → List ℚ) (applyModel : M → List ℚ → ℚ)
    (st st0 : EnsembleState M S) (a : ModelArtifact M S) (g1 g2 : RngState)
    (x : String → ℚ) :
    (predict_success_probability applyScaler applyModel
        (train_ensemble_model fit st g1) x =
      predict_success_probability applyScaler applyModel
        (train_ensemble_model fit st g2) x) ∧
    (st.is_trained = true → save_model st = some a →
      predict_success_probability applyScaler applyModel (load_model st0 a) x =
        predict_success_probability applyScaler applyModel st x) := by
  refine ⟨rfl, fun htr hsave => ?_⟩
  unfold save_model at hsave
  rw [if_pos htr] at hsave
  cases hsave
  rfl

/-- Witness for C8 over trivial model/scaler types. -/
theorem C8_train_and_persistence_determinism_witness :
    c8State.is_trained = true ∧ save_model c8State = some c8Artifact ∧
    (predict_success_probability (fun _ l => l) (fun _ _ => 1/2)
        (train_ensemble_model c8Fit c8State 0) (fun _ => 0) =
      predict_success_probability (fun _ l => l) (fun _ _ => 1/2)
        (train_ensemble_model c8Fit c8State 1) (fun _ => 0)) ∧
    (predict_success_probability (fun _ l => l) (fun _ _ => 1/2)
        (load_model c8State c8Artifact) (fun _ => 0) =
      predict_success_probability (fun _ l => l) (fun _ _ => 1/2) c8State
        (fun _ => 0)) :=
  ⟨rfl, rfl,
   (C8_train_and_persistence_determinism c8Fit (fun _ l => l) (fun _ _ => 1/2)
      c8State c8State c8Artifact 0 1 (fun _ => 0)).1,
   (C8_train_and_persistence_determinism c8Fit (fun _ l => l) (fun _ _ => 1/2)
      c8State c8State c8Artifact 0 1 (fun _ => 0)).2 rfl rfl⟩

/-- C9: a regex match whose parsed value is `0.0` is dropped by
`extract_financial_metrics` exactly as if it had failed to parse — the
values list is the successfully-parsed list filtered to nonzero entries —
even though `parse_financial_value "$0"` succeeds with `0.0`; hence a text
whose only revenue mention is `"$0"` produces no revenue entry. -/
theorem C9_zero_valued_parses_discarded :
    (∀ (pats : List RE) (t : String),
      metricValues pats t = (allParsedValues pats t).filter (fun v => v ≠ 0)) ∧
    parse_financial_value "$0" = some 0 ∧
    mlookup (extract_financial_metrics c9ZeroText) "revenue" = none := by
  refine ⟨metricValues_eq_filter, parse_dollar_0, ?_⟩
  rw [mlookup_extract "revenue" revenuePatterns c9ZeroText
    revenue_mem_financial_patterns, metricValues_c9Zero]
  simp

/-- C6 counterexample: on the text `"revenue: $0\nrevenue: $2M"` the code
returns 2000000 for revenue, while the claimed "median of all matches the
parser parsed successfully" is 0 (the two `$0` matches parse successfully
to 0.0 but are discarded by the code's truthiness test). -/
theorem C6_counterexample :
    mlookup (extract_financial_metrics c6ZeroText) "revenue" = some 2000000 ∧
    mlookup (extract_metrics_spec c6ZeroText) "revenue" = some 0 := by
  constructor
  · rw [mlookup_extract "revenue" revenuePatterns c6ZeroText
      revenue_mem_financial_patterns, metricValues_c6Zero, if_neg (by simp)]
    decide
  · rw [mlookup_extract_spec "revenue" revenuePatterns c6ZeroText
      revenue_mem_financial_patterns, allParsedValues_c6Zero, if_neg (by simp)]
    decide

/-- C6 amended: for every metric type, `extract_financial_metrics` returns
the median of the matches that parsed successfully to a NONZERO value — so
its output depends only on that multiset (order-independent), the key is
present iff at least one match parsed nonzero, and the spec's concrete
scenario still yields 2000000. -/
theorem C6_median_of_nonzero_parses :
    (∀ (mt : String) (pats : List RE) (t1 t2 : String),
      (mt, pats) ∈ financial_patterns →
      (metricValues pats t1).Perm (metricValues pats t2) →
      mlookup (extract_financial_metrics t1) mt =
        mlookup (extract_financial_metrics t2) mt) ∧
    (∀ (mt : String) (pats : List RE) (t : String),
      (mt, pats) ∈ financial_patterns →
      (mlookup (extract_financial_metrics t) mt = none ↔
        metricValues pats t = [])) ∧
    mlookup (extract_financial_metrics c6ExampleText) "revenue" = some 2000000 := by
  refine ⟨?_, ?_, ?_⟩
  · intro mt pats t1 t2 hmem hperm
    rw [mlookup_extract mt pats t1 hmem, mlookup_extract mt pats t2 hmem]
    by_cases h1 : metricValues pats t1 = []
    · have h2 : metricValues pats t2 = [] := by
        rw [h1] at hperm
        exact hperm.symm.eq_nil
      rw [if_pos h1, if_pos h2]
    · have h2 : ¬ metricValues pats t2 = [] := by
        intro hx
        rw [hx] at hperm
        exact h1 hperm.eq_nil
      rw [if_neg h1, if_neg h2, npMedian_perm _ _ hperm]
  · intro mt pats t hmem
    rw [mlookup_extract mt pats t hmem]
    by_cases h : metricValues pats t = []
    · simp [h]
    · simp [h]
  · rw [mlookup_extract "revenue" revenuePatterns c6ExampleText
      revenue_mem_financial_patterns, metricValues_c6Example, if_neg (by simp)]
    decide

/-- Witness for C6 on two texts whose revenue mentions are genuine
permutations of one another. -/
theorem C6_median_of_nonzero_parses_witness :
    ("revenue", revenuePatterns) ∈ financial_patterns ∧
    (metricValues revenuePatterns c6PermTextA).Perm
      (metricValues revenuePatterns c6PermTextB) ∧
    mlookup (extract_financial_metrics c6PermTextA) "revenue" =
      mlookup (extract_financial_metrics c6PermTextB) "revenue" :=
  ⟨revenue_mem_financial_patterns,
   by rw [metricValues_c6PermA, metricValues_c6PermB]; decide,
   (C6_median_of_nonzero_parses).1 "revenue" revenuePatterns c6PermTextA c6PermTextB
     revenue_mem_financial_patterns
     (by rw [metricValues_c6PermA, metricValues_c6PermB]; decide)⟩

end StartupAnalyst
